import Mathlib

/-!
Verification of the inbound audio jitter-buffer stream receiver
(libraries/audio/src/InboundAudioStream.h and the surrounding specification).

The header InboundAudioStream.h is the authoritative source for the Settings
class, the constants, and every inline accessor and setter.  The out-of-line
member functions (the ring buffer, the packet parser, the depth policy, the
per-second callback) are only declared there; those parts are modelled from
the specification, as marked on each definition.
-/

/- ### Constants, InboundAudioStream.h lines 28-48 -/

/-- DESIRED_JITTER_BUFFER_FRAMES_PADDING, header line 28. -/
def DESIRED_JITTER_BUFFER_FRAMES_PADDING : Int := 1

/-- INBOUND_RING_BUFFER_FRAME_CAPACITY, header line 39. -/
def INBOUND_RING_BUFFER_FRAME_CAPACITY : Int := 100

/-- DEFAULT_MAX_FRAMES_OVER_DESIRED, header line 41. -/
def DEFAULT_MAX_FRAMES_OVER_DESIRED : Int := 10

/-- DEFAULT_DYNAMIC_JITTER_BUFFERS, header line 42. -/
def DEFAULT_DYNAMIC_JITTER_BUFFERS : Bool := true

/-- DEFAULT_STATIC_DESIRED_JITTER_BUFFER_FRAMES, header line 43. -/
def DEFAULT_STATIC_DESIRED_JITTER_BUFFER_FRAMES : Int := 1

/-- DEFAULT_USE_STDEV_FOR_JITTER_CALC, header line 44. -/
def DEFAULT_USE_STDEV_FOR_JITTER_CALC : Bool := false

/-- DEFAULT_WINDOW_STARVE_THRESHOLD, header line 46. -/
def DEFAULT_WINDOW_STARVE_THRESHOLD : Int := 3

/-- DEFAULT_WINDOW_SECONDS_FOR_DESIRED_CALC_ON_TOO_MANY_STARVES, header line 47. -/
def DEFAULT_WINDOW_SECONDS_FOR_DESIRED_CALC_ON_TOO_MANY_STARVES : Int := 50

/-- DEFAULT_WINDOW_SECONDS_FOR_DESIRED_REDUCTION, header line 48. -/
def DEFAULT_WINDOW_SECONDS_FOR_DESIRED_REDUCTION : Int := 10

/-- Microseconds per second (USECS_PER_SECOND in the shared utilities). -/
def USECS_PER_SECOND : Int := 1000000

/-- Modelled from the spec: NUM_STDDEVS_FOR_DESIRED_JITTER = 3 (section 6,
wire-visible constants), used by the P (std-dev) estimator. -/
def NUM_STDDEVS_FOR_DESIRED_JITTER : Nat := 3

/-- Modelled from the spec: sequence numbers are 16-bit and wrap (section 3). -/
def SEQ_MOD : Nat := 65536

/-- Modelled from the spec: MAX_REASONABLE_SEQ_GAP = 1000, the wrap-defense
window of the sequence tracker (section 4.2). -/
def MAX_REASONABLE_SEQ_GAP : Nat := 1000

/- ### InboundAudioStream::Settings, header lines 53-92 -/

/-- The Settings class of InboundAudioStream, header lines 53-92; field names
and order follow the member declarations at lines 77-91. -/
structure Settings where
  _maxFramesOverDesired : Int
  _dynamicJitterBuffers : Bool
  _staticDesiredJitterBufferFrames : Int
  _useStDevForJitterCalc : Bool
  _windowStarveThreshold : Int
  _windowSecondsForDesiredCalcOnTooManyStarves : Int
  _windowSecondsForDesiredReduction : Int
  deriving DecidableEq, Repr

/-- The zero-argument Settings constructor, header lines 55-63: every field is
initialised from the corresponding DEFAULT_... constant. -/
def Settings.defaultSettings : Settings :=
  { _maxFramesOverDesired := DEFAULT_MAX_FRAMES_OVER_DESIRED
    _dynamicJitterBuffers := DEFAULT_DYNAMIC_JITTER_BUFFERS
    _staticDesiredJitterBufferFrames := DEFAULT_STATIC_DESIRED_JITTER_BUFFER_FRAMES
    _useStDevForJitterCalc := DEFAULT_USE_STDEV_FOR_JITTER_CALC
    _windowStarveThreshold := DEFAULT_WINDOW_STARVE_THRESHOLD
    _windowSecondsForDesiredCalcOnTooManyStarves :=
      DEFAULT_WINDOW_SECONDS_FOR_DESIRED_CALC_ON_TOO_MANY_STARVES
    _windowSecondsForDesiredReduction := DEFAULT_WINDOW_SECONDS_FOR_DESIRED_REDUCTION }

/-- The seven-argument Settings constructor, header lines 65-75.  The member
initialiser at line 74 reads windowSecondsForDesiredCalcOnTooManyStarves, so
the seventh parameter (named _windowSecondsForDesiredReduction at line 67) is
never used. -/
def Settings.mk7 (maxFramesOverDesired : Int) (dynamicJitterBuffers : Bool)
    (staticDesiredJitterBufferFrames : Int) (useStDevForJitterCalc : Bool)
    (windowStarveThreshold : Int) (windowSecondsForDesiredCalcOnTooManyStarves : Int)
    (_windowSecondsForDesiredReduction : Int) : Settings :=
  { _maxFramesOverDesired := maxFramesOverDesired
    _dynamicJitterBuffers := dynamicJitterBuffers
    _staticDesiredJitterBufferFrames := staticDesiredJitterBufferFrames
    _useStDevForJitterCalc := useStDevForJitterCalc
    _windowStarveThreshold := windowStarveThreshold
    _windowSecondsForDesiredCalcOnTooManyStarves := windowSecondsForDesiredCalcOnTooManyStarves
    _windowSecondsForDesiredReduction := windowSecondsForDesiredCalcOnTooManyStarves }

/- ### The ring buffer -/

/-- Modelled from the spec: AudioRingBuffer is not among the sources (only its
use in the header); sections 3 and 4.1 describe a circular store of
frameCapacity * frameSampleCount samples with a write cursor, a read cursor
and an overflow count.  Cursors are kept as absolute sample counts (the
circular wrap-around is the quotient by the capacity and does not affect the
counts the claims are about). -/
structure AudioRingBuffer where
  numFrameSamples : Nat
  frameCapacity : Nat
  readPos : Nat
  writePos : Nat
  overflowCount : Nat
  deriving DecidableEq, Repr

/-- Total sample capacity of the ring: frameCapacity * frameSampleCount. -/
def AudioRingBuffer.capacitySamples (rb : AudioRingBuffer) : Nat :=
  rb.frameCapacity * rb.numFrameSamples

/-- Samples currently stored (distance from read cursor to write cursor). -/
def AudioRingBuffer.samplesAvailable (rb : AudioRingBuffer) : Nat :=
  rb.writePos - rb.readPos

/-- Whole frames currently stored. -/
def AudioRingBuffer.framesAvailable (rb : AudioRingBuffer) : Nat :=
  rb.samplesAvailable / rb.numFrameSamples

/-- Modelled from the spec: the overwrite policy of section 4.1 - on write
overflow, advance the read cursor by the overflowed sample count, increment
the overflow count, and write. -/
def AudioRingBuffer.writeSamples (rb : AudioRingBuffer) (n : Nat) : AudioRingBuffer :=
  let w := rb.writePos + n
  if rb.capacitySamples < w - rb.readPos then
    { rb with writePos := w, readPos := w - rb.capacitySamples,
              overflowCount := rb.overflowCount + 1 }
  else
    { rb with writePos := w }

/-- Modelled from the spec: popping n frames advances the read cursor by
exactly n * frameSampleCount samples (sections 3 and 4.1); callers only pop
up to framesAvailable. -/
def AudioRingBuffer.popFramesRB (rb : AudioRingBuffer) (n : Nat) : AudioRingBuffer :=
  { rb with readPos := rb.readPos + n * rb.numFrameSamples }

/-- Modelled from the spec: sample-granularity pop (section 4.7). -/
def AudioRingBuffer.popSamplesRB (rb : AudioRingBuffer) (n : Nat) : AudioRingBuffer :=
  { rb with readPos := rb.readPos + n }

/-- Modelled from the spec: clearBuffer drops all frames without touching the
statistics (section 4.7). -/
def AudioRingBuffer.clearRB (rb : AudioRingBuffer) : AudioRingBuffer :=
  { rb with readPos := rb.writePos }

/- ### Sequence-number tracking -/

/-- Modelled from the spec: SequenceNumberStats is not among the sources;
section 3 lists its counters (last-seen number, received, unreasonable, early,
late, lost, duplicate). -/
structure SequenceNumberStats where
  lastReceived : Option Nat
  received : Nat
  unreasonable : Nat
  early : Nat
  late : Nat
  lost : Nat
  duplicate : Nat
  deriving DecidableEq, Repr

/-- Classification of an arriving packet (section 4.2). -/
inductive SeqKind where
  | onTime
  | early (gap : Nat)
  | lateKind
  | duplicate
  | unreasonable
  deriving DecidableEq, Repr

/-- Modelled from the spec: the sequence tracker of section 4.2.  The first
packet after a resync is ONTIME and sets the baseline; a match with the
expected number is ONTIME; a forward distance of at most
MAX_REASONABLE_SEQ_GAP is EARLY carrying the number of lost intermediates; a
backward distance within the same window is DUPLICATE when the number was
recently seen and LATE otherwise; everything else is UNREASONABLE. -/
def classifySeq (stats : SequenceNumberStats) (recentlySeen : List Nat) (s : Nat) : SeqKind :=
  match stats.lastReceived with
  | none => SeqKind.onTime
  | some last =>
    let expected := (last + 1) % SEQ_MOD
    let sm := s % SEQ_MOD
    if sm = expected then SeqKind.onTime
    else
      let ahead := (sm + SEQ_MOD - expected) % SEQ_MOD
      if ahead ≤ MAX_REASONABLE_SEQ_GAP then SeqKind.early ahead
      else if SEQ_MOD - ahead ≤ MAX_REASONABLE_SEQ_GAP then
        (if recentlySeen.contains sm then SeqKind.duplicate else SeqKind.lateKind)
      else SeqKind.unreasonable

/- ### Packets and jitter statistics -/

/-- Modelled from the spec: the view of a network packet that the stream core
consumes (section 4.6): a sequence number, the audio sample count obtained
from parseStreamProperties, the arrival time, and whether the subclass parse
of the payload fails (section 7, malformed packet). -/
structure AudioPacket where
  sequenceNumber : Nat
  numAudioSamples : Nat
  arrivalTimeUsecs : Nat
  malformed : Bool
  deriving DecidableEq, Repr

/-- Gaps recorded inside a moving window, restricted to the entries whose
timestamp is within windowSeconds of now (sections 3 and 4.3: the aggregators
are moving windows over packet timegaps). -/
def gapsWithin (gaps : List (Nat × Nat)) (now : Nat) (windowSeconds : Int) : List Nat :=
  (gaps.filter (fun tg => (now : Int) - (tg.1 : Int) ≤ windowSeconds * USECS_PER_SECOND)).map
    (fun tg => tg.2)

/-- Largest recorded gap (F method input, section 4.3). -/
def maxGapOf (gaps : List Nat) : Nat := gaps.foldr max 0

/-- Ceiling division on naturals (the estimates of section 4.3 are rounded up). -/
def ceilDiv (a b : Nat) : Nat := (a + b - 1) / b

/-- Modelled from the spec: integer approximation of the standard deviation of
the recorded timegaps (section 4.3, P method): the square root of the mean
squared deviation from the mean, all in integer arithmetic. -/
def stDevGaps (gaps : List Nat) : Nat :=
  match gaps.length with
  | 0 => 0
  | n =>
    let mean : Int := (gaps.foldr (fun g acc => acc + (g : Int)) 0) / (n : Int)
    let ssq : Int :=
      gaps.foldr (fun g acc => acc + ((g : Int) - mean) * ((g : Int) - mean)) 0
    Nat.sqrt (ssq / (n : Int)).toNat

/- ### The stream state -/

/-- The InboundAudioStream state.  The fields named with a leading underscore
are the data members declared at header lines 183-233; the remaining fields
(recentlySeen, the two gap windows, frameDurationUsecs) stand in for the
MovingMinMaxAvg / StDev / RingBufferHistory helper objects whose classes are
not among the sources and are modelled from the spec (sections 3 and 4.3). -/
structure InboundAudioStream where
  _ringBuffer : AudioRingBuffer
  _lastPopSucceeded : Bool
  _dynamicJitterBuffers : Bool
  _staticDesiredJitterBufferFrames : Int
  _useStDevForJitterCalc : Bool
  _desiredJitterBufferFrames : Int
  _maxFramesOverDesired : Int
  _isStarved : Bool
  _hasStarted : Bool
  _consecutiveNotMixedCount : Nat
  _starveCount : Nat
  _silentFramesDropped : Nat
  _oldFramesDropped : Nat
  _incomingSequenceNumberStats : SequenceNumberStats
  recentlySeen : List Nat
  _lastPacketReceivedTime : Option Nat
  gapsLongWindow : List (Nat × Nat)
  _calculatedJitterBufferFramesUsingMaxGap : Int
  _calculatedJitterBufferFramesUsingStDev : Int
  gapsReductionWindow : List (Nat × Nat)
  _starveHistoryWindowSeconds : Int
  _starveHistory : List Nat
  _starveThreshold : Int
  _windowSecondsForDesiredCalcOnTooManyStarves : Int
  _windowSecondsForDesiredReduction : Int
  _currentJitterBufferFrames : Int
  frameDurationUsecs : Nat
  deriving DecidableEq, Repr

/-- Pointwise order on the five monotone counters of the stream:
packetsReceived, starveCount, overflowCount, silentFramesDropped and
oldFramesDropped. -/
def CountersLE (s t : InboundAudioStream) : Prop :=
  s._incomingSequenceNumberStats.received ≤ t._incomingSequenceNumberStats.received ∧
  s._starveCount ≤ t._starveCount ∧
  s._ringBuffer.overflowCount ≤ t._ringBuffer.overflowCount ∧
  s._silentFramesDropped ≤ t._silentFramesDropped ∧
  s._oldFramesDropped ≤ t._oldFramesDropped

/- ### Inline accessors and setters, header lines 106-151 -/

/-- lastPopSucceeded, header line 106. -/
def InboundAudioStream.lastPopSucceeded (s : InboundAudioStream) : Bool := s._lastPopSucceeded

/-- getCalculatedJitterBufferFrames, header lines 127-128: the ternary on
_useStDevForJitterCalc selecting Philip's (std-dev) or Freddy's (max-gap)
calculated value. -/
def InboundAudioStream.getCalculatedJitterBufferFrames (s : InboundAudioStream) : Int :=
  if s._useStDevForJitterCalc then s._calculatedJitterBufferFramesUsingStDev
  else s._calculatedJitterBufferFramesUsingMaxGap

/-- getCalculatedJitterBufferFramesUsingStDev, header line 131. -/
def InboundAudioStream.getCalculatedJitterBufferFramesUsingStDev (s : InboundAudioStream) : Int :=
  s._calculatedJitterBufferFramesUsingStDev

/-- getCalculatedJitterBufferFramesUsingMaxGap, header line 134. -/
def InboundAudioStream.getCalculatedJitterBufferFramesUsingMaxGap (s : InboundAudioStream) : Int :=
  s._calculatedJitterBufferFramesUsingMaxGap

/-- getDesiredJitterBufferFrames, header line 136. -/
def InboundAudioStream.getDesiredJitterBufferFrames (s : InboundAudioStream) : Int :=
  s._desiredJitterBufferFrames

/-- getMaxFramesOverDesired, header line 137. -/
def InboundAudioStream.getMaxFramesOverDesired (s : InboundAudioStream) : Int :=
  s._maxFramesOverDesired

/-- getNumFrameSamples, header line 138. -/
def InboundAudioStream.getNumFrameSamples (s : InboundAudioStream) : Nat :=
  s._ringBuffer.numFrameSamples

/-- getFrameCapacity, header line 139. -/
def InboundAudioStream.getFrameCapacity (s : InboundAudioStream) : Nat :=
  s._ringBuffer.frameCapacity

/-- getFramesAvailable, header line 140. -/
def InboundAudioStream.getFramesAvailable (s : InboundAudioStream) : Nat :=
  s._ringBuffer.framesAvailable

/-- isStarved, header line 143. -/
def InboundAudioStream.isStarved (s : InboundAudioStream) : Bool := s._isStarved

/-- hasStarted, header line 144. -/
def InboundAudioStream.hasStarted (s : InboundAudioStream) : Bool := s._hasStarted

/-- getConsecutiveNotMixedCount, header line 146. -/
def InboundAudioStream.getConsecutiveNotMixedCount (s : InboundAudioStream) : Nat :=
  s._consecutiveNotMixedCount

/-- getStarveCount, header line 147. -/
def InboundAudioStream.getStarveCount (s : InboundAudioStream) : Nat := s._starveCount

/-- getSilentFramesDropped, header line 148. -/
def InboundAudioStream.getSilentFramesDropped (s : InboundAudioStream) : Nat :=
  s._silentFramesDropped

/-- getOldFramesDropped: the _oldFramesDropped counter of header line 211. -/
def InboundAudioStream.getOldFramesDropped (s : InboundAudioStream) : Nat := s._oldFramesDropped

/-- getOverflowCount, header line 149: forwarded to the ring buffer. -/
def InboundAudioStream.getOverflowCount (s : InboundAudioStream) : Nat :=
  s._ringBuffer.overflowCount

/-- getPacketsReceived, header line 151: forwarded to the sequence stats. -/
def InboundAudioStream.getPacketsReceived (s : InboundAudioStream) : Nat :=
  s._incomingSequenceNumberStats.received

/-- setMaxFramesOverDesired, header line 115: stores the argument into
_maxFramesOverDesired, nothing else. -/
def InboundAudioStream.setMaxFramesOverDesired (s : InboundAudioStream)
    (maxFramesOverDesired : Int) : InboundAudioStream :=
  { s with _maxFramesOverDesired := maxFramesOverDesired }

/-- setUseStDevForJitterCalc, header line 118: stores the argument into
_useStDevForJitterCalc, nothing else. -/
def InboundAudioStream.setUseStDevForJitterCalc (s : InboundAudioStream)
    (useStDevForJitterCalc : Bool) : InboundAudioStream :=
  { s with _useStDevForJitterCalc := useStDevForJitterCalc }

/-- setWindowStarveThreshold, header line 119: stores the argument into
_starveThreshold, nothing else. -/
def InboundAudioStream.setWindowStarveThreshold (s : InboundAudioStream)
    (windowStarveThreshold : Int) : InboundAudioStream :=
  { s with _starveThreshold := windowStarveThreshold }

/- ### Depth policy and starve machinery (spec-modelled operations) -/

/-- Modelled from the spec: clampDesiredJitterBufferFramesValue is declared at
header line 161 but defined outside the sources; sections 3, 4.3 and 4.5 clamp
to the interval from 0 to frameCapacity - maxFramesOverDesired (lower bound
applied first, then the upper bound). -/
def InboundAudioStream.clampDesiredJitterBufferFramesValue (s : InboundAudioStream)
    (desired : Int) : Int :=
  min (max desired 0) ((s._ringBuffer.frameCapacity : Int) - s._maxFramesOverDesired)

/-- Modelled from the spec: number of starves recorded within the
too-many-starves window (sections 3 and 4.4). -/
def InboundAudioStream.starvesInWindow (s : InboundAudioStream) (now : Nat) : Nat :=
  (s._starveHistory.filter
    (fun t => (now : Int) - (t : Int) ≤
      s._windowSecondsForDesiredCalcOnTooManyStarves * USECS_PER_SECOND)).length

/-- Modelled from the spec: the DepthPolicy rules of section 4.5, in order.
Rule 1: in static mode the target is the clamped static value.  Rule 2-3: in
too-many-starves mode the target grows to the selected estimate plus the
padding.  Rule 4 (tick only, allowShrink): otherwise the reduction-window
max gap may lower the target.  Rule 5: the result is always clamped. -/
def InboundAudioStream.depthPolicy (s : InboundAudioStream) (now : Nat)
    (allowShrink : Bool) : InboundAudioStream :=
  let d :=
    if s._dynamicJitterBuffers = false then s._staticDesiredJitterBufferFrames
    else if s._starveThreshold ≤ (s.starvesInWindow now : Int) then
      max s._desiredJitterBufferFrames
        (s.getCalculatedJitterBufferFrames + DESIRED_JITTER_BUFFER_FRAMES_PADDING)
    else if allowShrink then
      let shrinkTo := s.clampDesiredJitterBufferFramesValue
        ((ceilDiv (maxGapOf (gapsWithin s.gapsReductionWindow now
          s._windowSecondsForDesiredReduction)) s.frameDurationUsecs : Nat) : Int)
      if shrinkTo < s._desiredJitterBufferFrames then shrinkTo
      else s._desiredJitterBufferFrames
    else s._desiredJitterBufferFrames
  { s with _desiredJitterBufferFrames := s.clampDesiredJitterBufferFramesValue d }

/-- Modelled from the spec: recording a starve (section 4.4): increment the
starve count, set the starved flag, append the time to the starve history and
run the growth branch of the depth policy. -/
def InboundAudioStream.recordStarve (s : InboundAudioStream) (now : Nat) : InboundAudioStream :=
  let s1 := { s with
    _starveCount := s._starveCount + 1
    _isStarved := true
    _consecutiveNotMixedCount := s._consecutiveNotMixedCount + 1
    _lastPopSucceeded := false
    _starveHistory := now :: s._starveHistory }
  s1.depthPolicy now false

/-- Modelled from the spec: writeDroppableSilentSamples is declared at header
line 181 but defined outside the sources; per the loss-fill rule of section
4.6, when framesAvailable is already at or above currentJitterBufferFrames the
silent samples are dropped entirely and accounted in _silentFramesDropped,
otherwise they are written. -/
def InboundAudioStream.writeDroppableSilentSamples (s : InboundAudioStream)
    (numSilentSamples : Nat) : InboundAudioStream :=
  if s._currentJitterBufferFrames ≤ (s._ringBuffer.framesAvailable : Int) then
    { s with _silentFramesDropped := s._silentFramesDropped + numSilentSamples }
  else
    { s with _ringBuffer := s._ringBuffer.writeSamples numSilentSamples }

/-- Modelled from the spec: writeSamplesForDroppedPackets (header line 163)
forwards the loss-fill sample count to writeDroppableSilentSamples
(section 4.6). -/
def InboundAudioStream.writeSamplesForDroppedPackets (s : InboundAudioStream)
    (numSamples : Nat) : InboundAudioStream :=
  s.writeDroppableSilentSamples numSamples

/-- Modelled from the spec: step 7 of parseData (section 4.6): if the ring
holds more than desiredFrames + maxFramesOverDesired frames, the oldest frames
are dropped until framesAvailable is back at desiredFrames, and
_oldFramesDropped grows by the number of dropped frames. -/
def InboundAudioStream.trimOldFrames (s : InboundAudioStream) : InboundAudioStream :=
  let avail : Int := (s._ringBuffer.framesAvailable : Int)
  if s._desiredJitterBufferFrames + s._maxFramesOverDesired < avail then
    let dropCount : Nat := (avail - max s._desiredJitterBufferFrames 0).toNat
    { s with _ringBuffer := s._ringBuffer.popFramesRB dropCount,
             _oldFramesDropped := s._oldFramesDropped + dropCount }
  else s

/- ### parseData and the pops (spec-modelled operations) -/

/-- Modelled from the spec: writing the packet's audio samples into the ring
(section 4.6, parseAudioData). -/
def InboundAudioStream.writeAudioSamples (s : InboundAudioStream) (n : Nat) :
    InboundAudioStream :=
  { s with _ringBuffer := s._ringBuffer.writeSamples n }

/-- Modelled from the spec: recording the arrival timegap since the previous
accepted packet in both estimator windows (section 4.3); no gap is recorded
for the first accepted packet. -/
def InboundAudioStream.recordTimegap (s : InboundAudioStream) (p : AudioPacket) :
    InboundAudioStream :=
  match s._lastPacketReceivedTime with
  | none => s
  | some t =>
    { s with
      gapsLongWindow := (p.arrivalTimeUsecs, p.arrivalTimeUsecs - t) :: s.gapsLongWindow
      gapsReductionWindow :=
        (p.arrivalTimeUsecs, p.arrivalTimeUsecs - t) :: s.gapsReductionWindow }

/-- Modelled from the spec: remembering the packet's arrival time and its
sequence number (for duplicate detection, section 4.2). -/
def InboundAudioStream.noteArrival (s : InboundAudioStream) (p : AudioPacket) :
    InboundAudioStream :=
  { s with _lastPacketReceivedTime := some p.arrivalTimeUsecs
           recentlySeen := (p.sequenceNumber % SEQ_MOD) :: s.recentlySeen }

/-- Modelled from the spec: the starved flag clears once framesAvailable has
reached desiredFrames again (section 4.4). -/
def InboundAudioStream.clearStarveIfRefilled (s : InboundAudioStream) : InboundAudioStream :=
  if s._desiredJitterBufferFrames ≤ (s._ringBuffer.framesAvailable : Int) then
    { s with _isStarved := false }
  else s

/-- Modelled from the spec: the accepted-packet path of parseData (section
4.6, step 6 onward): loss-fill for the lost intermediates, write the packet's
audio samples, record the arrival timegap in both estimator windows, run the
growth branch of the depth policy, trim old frames, and clear the starved
flag once framesAvailable has reached desiredFrames again (section 4.4). -/
def InboundAudioStream.acceptPacket (s : InboundAudioStream) (p : AudioPacket)
    (gapLost : Nat) : InboundAudioStream :=
  (((((s.writeSamplesForDroppedPackets
    (gapLost * p.numAudioSamples)).writeAudioSamples
      p.numAudioSamples).recordTimegap p).noteArrival p).depthPolicy
        p.arrivalTimeUsecs false).trimOldFrames.clearStarveIfRefilled

/-- Modelled from the spec: the UNREASONABLE branch of parseData (section
4.6 step 3): clear the ring and resync the tracker (the parenthetical at that
step), keeping the cumulative statistics; the received and unreasonable
counters grow. -/
def InboundAudioStream.onUnreasonablePacket (s : InboundAudioStream) : InboundAudioStream :=
  { s with
    _ringBuffer := s._ringBuffer.clearRB
    _incomingSequenceNumberStats :=
      { s._incomingSequenceNumberStats with
        received := s._incomingSequenceNumberStats.received + 1
        unreasonable := s._incomingSequenceNumberStats.unreasonable + 1
        lastReceived := none }
    recentlySeen := []
    _lastPacketReceivedTime := none }

/-- Modelled from the spec: the DUPLICATE branch of parseData (section 4.6
step 4): count and discard. -/
def InboundAudioStream.onDuplicatePacket (s : InboundAudioStream) : InboundAudioStream :=
  { s with _incomingSequenceNumberStats :=
      { s._incomingSequenceNumberStats with
        received := s._incomingSequenceNumberStats.received + 1
        duplicate := s._incomingSequenceNumberStats.duplicate + 1 } }

/-- Modelled from the spec: the LATE branch of parseData (section 4.6 step
5); the policy chosen here is drop (one of the two policies section 9 leaves
open): count and discard. -/
def InboundAudioStream.onLatePacket (s : InboundAudioStream) : InboundAudioStream :=
  { s with _incomingSequenceNumberStats :=
      { s._incomingSequenceNumberStats with
        received := s._incomingSequenceNumberStats.received + 1
        late := s._incomingSequenceNumberStats.late + 1 } }

/-- Modelled from the spec: the ONTIME branch of parseData (section 4.6 step
6): update the tracker baseline and accept with no loss fill. -/
def InboundAudioStream.onTimePacket (s : InboundAudioStream) (p : AudioPacket) :
    InboundAudioStream :=
  InboundAudioStream.acceptPacket
    { s with _incomingSequenceNumberStats :=
        { s._incomingSequenceNumberStats with
          received := s._incomingSequenceNumberStats.received + 1
          lastReceived := some (p.sequenceNumber % SEQ_MOD) } } p 0

/-- Modelled from the spec: the EARLY branch of parseData (section 4.6 step
6): count the gap intermediates as lost, update the baseline, and accept with
loss fill for the gap. -/
def InboundAudioStream.onEarlyPacket (s : InboundAudioStream) (p : AudioPacket)
    (gap : Nat) : InboundAudioStream :=
  InboundAudioStream.acceptPacket
    { s with _incomingSequenceNumberStats :=
        { s._incomingSequenceNumberStats with
          received := s._incomingSequenceNumberStats.received + 1
          early := s._incomingSequenceNumberStats.early + 1
          lost := s._incomingSequenceNumberStats.lost + gap
          lastReceived := some (p.sequenceNumber % SEQ_MOD) } } p gap

/-- Modelled from the spec: parseData is declared at header line 101 but
defined outside the sources; section 4.6 gives the steps and section 7 the
error behavior.  A malformed payload returns with no state change; otherwise
the packet is dispatched on its sequence-number classification. -/
def InboundAudioStream.parseData (s : InboundAudioStream) (p : AudioPacket) :
    InboundAudioStream :=
  if p.malformed then s
  else
    match classifySeq s._incomingSequenceNumberStats s.recentlySeen p.sequenceNumber with
    | SeqKind.unreasonable => s.onUnreasonablePacket
    | SeqKind.duplicate => s.onDuplicatePacket
    | SeqKind.lateKind => s.onLatePacket
    | SeqKind.onTime => s.onTimePacket p
    | SeqKind.early gap => s.onEarlyPacket p gap

/-- Modelled from the spec: the number of frames a popFrames call removes
(section 4.7): zero when allOrNothing is set and too few frames are
available, otherwise min(maxFrames, framesAvailable). -/
def InboundAudioStream.framesPoppedCount (s : InboundAudioStream) (maxFrames : Nat)
    (allOrNothing : Bool) : Nat :=
  if allOrNothing = true ∧ s._ringBuffer.framesAvailable < maxFrames then 0
  else min maxFrames s._ringBuffer.framesAvailable

/-- Modelled from the spec: the number of samples a popSamples call removes
(section 4.7). -/
def InboundAudioStream.samplesPoppedCount (s : InboundAudioStream) (maxSamples : Nat)
    (allOrNothing : Bool) : Nat :=
  if allOrNothing = true ∧ s._ringBuffer.samplesAvailable < maxSamples then 0
  else min maxSamples s._ringBuffer.samplesAvailable

/-- Modelled from the spec: a zero pop without a starve only records the
failure (sections 4.1 and 4.7: lastPopSucceeded). -/
def InboundAudioStream.popFail (s : InboundAudioStream) : InboundAudioStream :=
  { s with _lastPopSucceeded := false }

/-- Modelled from the spec: a successful pop of n frames advances the read
cursor by n frames, marks the stream started and resets the
consecutive-not-mixed count (sections 3, 4.4 and 4.7). -/
def InboundAudioStream.popFramesSuccess (s : InboundAudioStream) (n : Nat) :
    InboundAudioStream :=
  { s with _ringBuffer := s._ringBuffer.popFramesRB n
           _lastPopSucceeded := true
           _hasStarted := true
           _consecutiveNotMixedCount := 0 }

/-- Modelled from the spec: a successful pop of n samples (section 4.7). -/
def InboundAudioStream.popSamplesSuccess (s : InboundAudioStream) (n : Nat) :
    InboundAudioStream :=
  { s with _ringBuffer := s._ringBuffer.popSamplesRB n
           _lastPopSucceeded := true
           _hasStarted := true
           _consecutiveNotMixedCount := 0 }

/-- Modelled from the spec: popFrames is declared at header line 103 but
defined outside the sources; per section 4.7, with allOrNothing and too few
frames nothing is popped, otherwise min(maxFrames, framesAvailable) frames
are popped; a zero pop with starveIfNoFramesPopped records a starve.  Returns
the new state and the number of frames popped. -/
def InboundAudioStream.popFrames (s : InboundAudioStream) (maxFrames : Nat)
    (allOrNothing : Bool) (starveIfNoFramesPopped : Bool) (now : Nat) :
    InboundAudioStream × Nat :=
  let popped := s.framesPoppedCount maxFrames allOrNothing
  if popped = 0 then
    if starveIfNoFramesPopped then (s.recordStarve now, 0)
    else (s.popFail, 0)
  else (s.popFramesSuccess popped, popped)

/-- Modelled from the spec: popSamples (header line 104), the
sample-granularity analog of popFrames (section 4.7). -/
def InboundAudioStream.popSamples (s : InboundAudioStream) (maxSamples : Nat)
    (allOrNothing : Bool) (starveIfNoSamplesPopped : Bool) (now : Nat) :
    InboundAudioStream × Nat :=
  let popped := s.samplesPoppedCount maxSamples allOrNothing
  if popped = 0 then
    if starveIfNoSamplesPopped then (s.recordStarve now, 0)
    else (s.popFail, 0)
  else (s.popSamplesSuccess popped, popped)

/- ### The remaining operations (spec-modelled) -/

/-- Modelled from the spec: setToStarved (header line 110) forces the starved
flag (section 4.7). -/
def InboundAudioStream.setToStarved (s : InboundAudioStream) : InboundAudioStream :=
  { s with _isStarved := true }

/-- Modelled from the spec: clearBuffer (header line 99) drops all frames
without resetting the statistics (section 4.7). -/
def InboundAudioStream.clearBuffer (s : InboundAudioStream) : InboundAudioStream :=
  { s with _ringBuffer := s._ringBuffer.clearRB }

/-- Modelled from the spec: resetStats (header line 98) zeroes the statistics:
the stream counters, the sequence counters, the ring overflow count and the
recorded windows. -/
def InboundAudioStream.resetStats (s : InboundAudioStream) : InboundAudioStream :=
  { s with _consecutiveNotMixedCount := 0
           _starveCount := 0
           _silentFramesDropped := 0
           _oldFramesDropped := 0
           _incomingSequenceNumberStats :=
             { s._incomingSequenceNumberStats with
               received := 0, unreasonable := 0, early := 0, late := 0,
               lost := 0, duplicate := 0 }
           _ringBuffer := { s._ringBuffer with overflowCount := 0 }
           gapsLongWindow := []
           gapsReductionWindow := []
           _starveHistory := [] }

/-- Modelled from the spec: reset (header line 97) is clear buffer + reset
stats + resync (section 4.7). -/
def InboundAudioStream.reset (s : InboundAudioStream) : InboundAudioStream :=
  let s1 := s.clearBuffer
  let s2 := s1.resetStats
  { s2 with
    _incomingSequenceNumberStats :=
      { s2._incomingSequenceNumberStats with lastReceived := none }
    recentlySeen := []
    _lastPacketReceivedTime := none
    _isStarved := false
    _hasStarted := false }

/-- Modelled from the spec: setSettings is declared at header line 113 but
defined outside the sources; it stores all seven settings fields into the
stream's members (the granular setters of header lines 115-121 are the
single-field instances of this op).  Per section 5 the stored values take
effect on the next producer operation or tick. -/
def InboundAudioStream.setSettings (s : InboundAudioStream) (st : Settings) :
    InboundAudioStream :=
  { s with _maxFramesOverDesired := st._maxFramesOverDesired
           _dynamicJitterBuffers := st._dynamicJitterBuffers
           _staticDesiredJitterBufferFrames := st._staticDesiredJitterBufferFrames
           _useStDevForJitterCalc := st._useStDevForJitterCalc
           _starveThreshold := st._windowStarveThreshold
           _starveHistoryWindowSeconds := st._windowSecondsForDesiredCalcOnTooManyStarves
           _windowSecondsForDesiredCalcOnTooManyStarves :=
             st._windowSecondsForDesiredCalcOnTooManyStarves
           _windowSecondsForDesiredReduction := st._windowSecondsForDesiredReduction }

/-- Modelled from the spec: the estimator refresh of the per-second tick
(sections 4.3 and 4.8): F is the clamped rounded-up max gap over the long
window, P the clamped rounded-up NUM_STDDEVS_FOR_DESIRED_JITTER standard
deviations, both divided by the frame duration. -/
def InboundAudioStream.recomputeEstimates (s : InboundAudioStream) (now : Nat) :
    InboundAudioStream :=
  let longGaps := gapsWithin s.gapsLongWindow now
    s._windowSecondsForDesiredCalcOnTooManyStarves
  { s with
    _calculatedJitterBufferFramesUsingMaxGap :=
      s.clampDesiredJitterBufferFramesValue
        ((ceilDiv (maxGapOf longGaps) s.frameDurationUsecs : Nat) : Int)
    _calculatedJitterBufferFramesUsingStDev :=
      s.clampDesiredJitterBufferFramesValue
        ((ceilDiv (NUM_STDDEVS_FOR_DESIRED_JITTER * stDevGaps longGaps)
          s.frameDurationUsecs : Nat) : Int) }

/-- Modelled from the spec: perSecondCallbackForUpdatingStats (header line
157, defined outside the sources); per section 4.8 it recomputes both
estimates, refreshes _currentJitterBufferFrames from the frames-available
statistic (abstracted here to the frames available at the tick), and applies
the depth policy including the shrink rule. -/
def InboundAudioStream.perSecondCallbackForUpdatingStats (s : InboundAudioStream)
    (now : Nat) : InboundAudioStream :=
  let s1 := s.recomputeEstimates now
  let s2 := { s1 with _currentJitterBufferFrames := (s1._ringBuffer.framesAvailable : Int) }
  s2.depthPolicy now true

/- ### Construction -/

/-- Modelled from the spec: the initial stream state (the constructor body is
outside the sources; header line 95 gives the parameters).  Counters start at
zero, the ring is empty, and the initial target depth is one frame in dynamic
mode and the static setting otherwise, clamped (sections 3 and 4.5). -/
def initStream (numFrameSamples numFramesCapacity frameDurationUsecs : Nat)
    (st : Settings) : InboundAudioStream :=
  let s0 : InboundAudioStream :=
    { _ringBuffer :=
        { numFrameSamples := numFrameSamples, frameCapacity := numFramesCapacity,
          readPos := 0, writePos := 0, overflowCount := 0 }
      _lastPopSucceeded := true
      _dynamicJitterBuffers := st._dynamicJitterBuffers
      _staticDesiredJitterBufferFrames := st._staticDesiredJitterBufferFrames
      _useStDevForJitterCalc := st._useStDevForJitterCalc
      _desiredJitterBufferFrames := 0
      _maxFramesOverDesired := st._maxFramesOverDesired
      _isStarved := false
      _hasStarted := false
      _consecutiveNotMixedCount := 0
      _starveCount := 0
      _silentFramesDropped := 0
      _oldFramesDropped := 0
      _incomingSequenceNumberStats :=
        { lastReceived := none, received := 0, unreasonable := 0, early := 0,
          late := 0, lost := 0, duplicate := 0 }
      recentlySeen := []
      _lastPacketReceivedTime := none
      gapsLongWindow := []
      _calculatedJitterBufferFramesUsingMaxGap := 0
      _calculatedJitterBufferFramesUsingStDev := 0
      gapsReductionWindow := []
      _starveHistoryWindowSeconds := st._windowSecondsForDesiredCalcOnTooManyStarves
      _starveHistory := []
      _starveThreshold := st._windowStarveThreshold
      _windowSecondsForDesiredCalcOnTooManyStarves :=
        st._windowSecondsForDesiredCalcOnTooManyStarves
      _windowSecondsForDesiredReduction := st._windowSecondsForDesiredReduction
      _currentJitterBufferFrames := 0
      frameDurationUsecs := frameDurationUsecs }
  { s0 with
    _desiredJitterBufferFrames :=
      s0.clampDesiredJitterBufferFramesValue
        (if st._dynamicJitterBuffers then 1 else st._staticDesiredJitterBufferFrames) }

/-- Modelled from the spec: stream creation fails exactly on construction-time
misconfiguration, frameCapacity < 1 or frameSampleCount < 1 (section 7). -/
def mkInboundAudioStream (numFrameSamples numFramesCapacity : Int)
    (frameDurationUsecs : Nat) (st : Settings) : Option InboundAudioStream :=
  if numFrameSamples < 1 ∨ numFramesCapacity < 1 then none
  else some (initStream numFrameSamples.toNat numFramesCapacity.toNat frameDurationUsecs st)

/- ### The operation alphabet and runs -/

/-- One externally drivable operation of the stream; pops and time-dependent
operations carry the current time explicitly. -/
inductive StreamOp where
  | parse (p : AudioPacket)
  | popFrames (maxFrames : Nat) (allOrNothing : Bool) (starveIfNoFramesPopped : Bool) (now : Nat)
  | popSamples (maxSamples : Nat) (allOrNothing : Bool) (starveIfNoSamplesPopped : Bool) (now : Nat)
  | setToStarved
  | clearBuffer
  | reset
  | resetStats
  | tick (now : Nat)
  | setSettings (st : Settings)
  deriving DecidableEq, Repr

/-- Whether the operation mutates the settings. -/
def StreamOp.isSetSettings : StreamOp → Bool
  | StreamOp.setSettings _ => true
  | _ => false

/-- The step function of the stream, dispatching each operation to its model. -/
def step (s : InboundAudioStream) : StreamOp → InboundAudioStream
  | StreamOp.parse p => s.parseData p
  | StreamOp.popFrames m a st now => (s.popFrames m a st now).1
  | StreamOp.popSamples m a st now => (s.popSamples m a st now).1
  | StreamOp.setToStarved => s.setToStarved
  | StreamOp.clearBuffer => s.clearBuffer
  | StreamOp.reset => s.reset
  | StreamOp.resetStats => s.resetStats
  | StreamOp.tick now => s.perSecondCallbackForUpdatingStats now
  | StreamOp.setSettings st => s.setSettings st

/-- Running a list of operations from a state. -/
def run (s : InboundAudioStream) (ops : List StreamOp) : InboundAudioStream :=
  ops.foldl step s

/- ### Invariant predicates and shared concrete states -/

/-- A concrete stream: 240 samples per frame, 100-frame capacity, 10 ms frame
duration, default settings; this is the state produced by a successful
construction (see mkSampleState_eq). -/
def sampleState : InboundAudioStream := initStream 240 100 10000 Settings.defaultSettings

/-- Default settings with the static jitter-buffer mode selected. -/
def staticSettings : Settings :=
  { Settings.defaultSettings with _dynamicJitterBuffers := false }

/-- Default settings whose maxFramesOverDesired exceeds the 100-frame
capacity used by the concrete streams below. -/
def degenerateSettings : Settings :=
  { Settings.defaultSettings with _maxFramesOverDesired := 101 }

/-- The desired depth is pinned to the clamped static setting. -/
def StaticPinned (s : InboundAudioStream) : Prop :=
  s._desiredJitterBufferFrames =
    s.clampDesiredJitterBufferFramesValue s._staticDesiredJitterBufferFrames

/-- Well-formedness of the ring cursors: the read cursor is behind the write
cursor by at most the sample capacity. -/
def RingWF (rb : AudioRingBuffer) : Prop :=
  rb.readPos ≤ rb.writePos ∧ rb.samplesAvailable ≤ rb.capacitySamples

/-- The desired depth and both calculated estimates lie in the clamp interval
from 0 to frameCapacity - maxFramesOverDesired. -/
def DesiredInRange (s : InboundAudioStream) : Prop :=
  (0 ≤ s._desiredJitterBufferFrames ∧
    s._desiredJitterBufferFrames ≤
      (s._ringBuffer.frameCapacity : Int) - s._maxFramesOverDesired) ∧
  (0 ≤ s._calculatedJitterBufferFramesUsingMaxGap ∧
    s._calculatedJitterBufferFramesUsingMaxGap ≤
      (s._ringBuffer.frameCapacity : Int) - s._maxFramesOverDesired) ∧
  (0 ≤ s._calculatedJitterBufferFramesUsingStDev ∧
    s._calculatedJitterBufferFramesUsingStDev ≤
      (s._ringBuffer.frameCapacity : Int) - s._maxFramesOverDesired)

/-- A concrete stream in static mode. -/
def staticSampleState : InboundAudioStream := initStream 240 100 10000 staticSettings

/-- The configuration of a stream: every field that only a settings change or
reconstruction can modify. -/
def Cfg (s t : InboundAudioStream) : Prop :=
  t._dynamicJitterBuffers = s._dynamicJitterBuffers ∧
  t._staticDesiredJitterBufferFrames = s._staticDesiredJitterBufferFrames ∧
  t._useStDevForJitterCalc = s._useStDevForJitterCalc ∧
  t._maxFramesOverDesired = s._maxFramesOverDesired ∧
  t._starveThreshold = s._starveThreshold ∧
  t._windowSecondsForDesiredCalcOnTooManyStarves =
    s._windowSecondsForDesiredCalcOnTooManyStarves ∧
  t._windowSecondsForDesiredReduction = s._windowSecondsForDesiredReduction ∧
  t._ringBuffer.frameCapacity = s._ringBuffer.frameCapacity ∧
  t._ringBuffer.numFrameSamples = s._ringBuffer.numFrameSamples ∧
  t.frameDurationUsecs = s.frameDurationUsecs


/- ### Shared concrete states for witnesses and counterexamples -/

/-- The sample state is what mkInboundAudioStream returns on those inputs. -/
theorem mkSampleState_eq :
    mkInboundAudioStream 240 100 10000 Settings.defaultSettings = some sampleState := by
  decide

/- ### C1 -/

/-- C1: in the 7-argument Settings constructor, the constructed settings'
reduction-window seconds equal the sixth argument
(windowSecondsForDesiredCalcOnTooManyStarves), and the seventh parameter has
no effect on the constructed object (header line 74). -/
theorem C1_ctor_reduction_window_from_sixth_argument :
    ∀ (a : Int) (b : Bool) (c : Int) (d : Bool) (e f g : Int),
      (Settings.mk7 a b c d e f g)._windowSecondsForDesiredReduction = f ∧
      ∀ g2 : Int, Settings.mk7 a b c d e f g = Settings.mk7 a b c d e f g2 := by
  intro a b c d e f g
  exact ⟨rfl, fun g2 => rfl⟩

/- ### C6 -/

/-- C6: a default-constructed Settings object has maxFramesOverDesired = 10,
dynamicJitterBuffers = true, staticDesiredJitterBufferFrames = 1,
useStDevForJitterCalc = false, windowStarveThreshold = 3,
windowSecondsForDesiredCalcOnTooManyStarves = 50 and
windowSecondsForDesiredReduction = 10 (header lines 41-48 and 55-63). -/
theorem C6_default_settings_values :
    Settings.defaultSettings._maxFramesOverDesired = 10 ∧
    Settings.defaultSettings._dynamicJitterBuffers = true ∧
    Settings.defaultSettings._staticDesiredJitterBufferFrames = 1 ∧
    Settings.defaultSettings._useStDevForJitterCalc = false ∧
    Settings.defaultSettings._windowStarveThreshold = 3 ∧
    Settings.defaultSettings._windowSecondsForDesiredCalcOnTooManyStarves = 50 ∧
    Settings.defaultSettings._windowSecondsForDesiredReduction = 10 := by
  exact ⟨rfl, rfl, rfl, rfl, rfl, rfl, rfl⟩

/- ### C5 -/

/-- C5: for every state of the stream, getCalculatedJitterBufferFrames equals
the std-dev (Philip) calculated value when useStDev is set and the max-gap
(Freddy) calculated value when it is not (header lines 127-128). -/
theorem C5_calculated_depth_selector (s : InboundAudioStream) :
    (s._useStDevForJitterCalc = true →
      s.getCalculatedJitterBufferFrames = s.getCalculatedJitterBufferFramesUsingStDev) ∧
    (s._useStDevForJitterCalc = false →
      s.getCalculatedJitterBufferFrames = s.getCalculatedJitterBufferFramesUsingMaxGap) := by
  constructor <;> intro h <;>
    simp [InboundAudioStream.getCalculatedJitterBufferFrames,
      InboundAudioStream.getCalculatedJitterBufferFramesUsingStDev,
      InboundAudioStream.getCalculatedJitterBufferFramesUsingMaxGap, h]

/-- C5 witness: the selector evaluated at a concrete state. -/
theorem C5_calculated_depth_selector_witness :
    sampleState._useStDevForJitterCalc = false ∧
    sampleState.getCalculatedJitterBufferFrames =
      sampleState.getCalculatedJitterBufferFramesUsingMaxGap :=
  ⟨rfl, (C5_calculated_depth_selector sampleState).2 rfl⟩

/- ### C10 -/

/-- C10: each of the inline granular setters setMaxFramesOverDesired (header
line 115), setUseStDevForJitterCalc (line 118) and setWindowStarveThreshold
(line 119) stores its argument - any integer or boolean, with no clamping or
validation - into exactly one field, and leaves every other field of the
stream unchanged. -/
theorem C10_granular_setters_single_field (s : InboundAudioStream) (v w : Int) (b : Bool) :
    (((s.setMaxFramesOverDesired v)._maxFramesOverDesired = v) ∧
     ((s.setMaxFramesOverDesired v)._ringBuffer = s._ringBuffer) ∧
     ((s.setMaxFramesOverDesired v)._lastPopSucceeded = s._lastPopSucceeded) ∧
     ((s.setMaxFramesOverDesired v)._dynamicJitterBuffers = s._dynamicJitterBuffers) ∧
     ((s.setMaxFramesOverDesired v)._staticDesiredJitterBufferFrames = s._staticDesiredJitterBufferFrames) ∧
     ((s.setMaxFramesOverDesired v)._useStDevForJitterCalc = s._useStDevForJitterCalc) ∧
     ((s.setMaxFramesOverDesired v)._desiredJitterBufferFrames = s._desiredJitterBufferFrames) ∧
     ((s.setMaxFramesOverDesired v)._isStarved = s._isStarved) ∧
     ((s.setMaxFramesOverDesired v)._hasStarted = s._hasStarted) ∧
     ((s.setMaxFramesOverDesired v)._consecutiveNotMixedCount = s._consecutiveNotMixedCount) ∧
     ((s.setMaxFramesOverDesired v)._starveCount = s._starveCount) ∧
     ((s.setMaxFramesOverDesired v)._silentFramesDropped = s._silentFramesDropped) ∧
     ((s.setMaxFramesOverDesired v)._oldFramesDropped = s._oldFramesDropped) ∧
     ((s.setMaxFramesOverDesired v)._incomingSequenceNumberStats = s._incomingSequenceNumberStats) ∧
     ((s.setMaxFramesOverDesired v).recentlySeen = s.recentlySeen) ∧
     ((s.setMaxFramesOverDesired v)._lastPacketReceivedTime = s._lastPacketReceivedTime) ∧
     ((s.setMaxFramesOverDesired v).gapsLongWindow = s.gapsLongWindow) ∧
     ((s.setMaxFramesOverDesired v)._calculatedJitterBufferFramesUsingMaxGap = s._calculatedJitterBufferFramesUsingMaxGap) ∧
     ((s.setMaxFramesOverDesired v)._calculatedJitterBufferFramesUsingStDev = s._calculatedJitterBufferFramesUsingStDev) ∧
     ((s.setMaxFramesOverDesired v).gapsReductionWindow = s.gapsReductionWindow) ∧
     ((s.setMaxFramesOverDesired v)._starveHistoryWindowSeconds = s._starveHistoryWindowSeconds) ∧
     ((s.setMaxFramesOverDesired v)._starveHistory = s._starveHistory) ∧
     ((s.setMaxFramesOverDesired v)._starveThreshold = s._starveThreshold) ∧
     ((s.setMaxFramesOverDesired v)._windowSecondsForDesiredCalcOnTooManyStarves = s._windowSecondsForDesiredCalcOnTooManyStarves) ∧
     ((s.setMaxFramesOverDesired v)._windowSecondsForDesiredReduction = s._windowSecondsForDesiredReduction) ∧
     ((s.setMaxFramesOverDesired v)._currentJitterBufferFrames = s._currentJitterBufferFrames) ∧
     ((s.setMaxFramesOverDesired v).frameDurationUsecs = s.frameDurationUsecs)) ∧
    (((s.setUseStDevForJitterCalc b)._useStDevForJitterCalc = b) ∧
     ((s.setUseStDevForJitterCalc b)._ringBuffer = s._ringBuffer) ∧
     ((s.setUseStDevForJitterCalc b)._lastPopSucceeded = s._lastPopSucceeded) ∧
     ((s.setUseStDevForJitterCalc b)._dynamicJitterBuffers = s._dynamicJitterBuffers) ∧
     ((s.setUseStDevForJitterCalc b)._staticDesiredJitterBufferFrames = s._staticDesiredJitterBufferFrames) ∧
     ((s.setUseStDevForJitterCalc b)._desiredJitterBufferFrames = s._desiredJitterBufferFrames) ∧
     ((s.setUseStDevForJitterCalc b)._maxFramesOverDesired = s._maxFramesOverDesired) ∧
     ((s.setUseStDevForJitterCalc b)._isStarved = s._isStarved) ∧
     ((s.setUseStDevForJitterCalc b)._hasStarted = s._hasStarted) ∧
     ((s.setUseStDevForJitterCalc b)._consecutiveNotMixedCount = s._consecutiveNotMixedCount) ∧
     ((s.setUseStDevForJitterCalc b)._starveCount = s._starveCount) ∧
     ((s.setUseStDevForJitterCalc b)._silentFramesDropped = s._silentFramesDropped) ∧
     ((s.setUseStDevForJitterCalc b)._oldFramesDropped = s._oldFramesDropped) ∧
     ((s.setUseStDevForJitterCalc b)._incomingSequenceNumberStats = s._incomingSequenceNumberStats) ∧
     ((s.setUseStDevForJitterCalc b).recentlySeen = s.recentlySeen) ∧
     ((s.setUseStDevForJitterCalc b)._lastPacketReceivedTime = s._lastPacketReceivedTime) ∧
     ((s.setUseStDevForJitterCalc b).gapsLongWindow = s.gapsLongWindow) ∧
     ((s.setUseStDevForJitterCalc b)._calculatedJitterBufferFramesUsingMaxGap = s._calculatedJitterBufferFramesUsingMaxGap) ∧
     ((s.setUseStDevForJitterCalc b)._calculatedJitterBufferFramesUsingStDev = s._calculatedJitterBufferFramesUsingStDev) ∧
     ((s.setUseStDevForJitterCalc b).gapsReductionWindow = s.gapsReductionWindow) ∧
     ((s.setUseStDevForJitterCalc b)._starveHistoryWindowSeconds = s._starveHistoryWindowSeconds) ∧
     ((s.setUseStDevForJitterCalc b)._starveHistory = s._starveHistory) ∧
     ((s.setUseStDevForJitterCalc b)._starveThreshold = s._starveThreshold) ∧
     ((s.setUseStDevForJitterCalc b)._windowSecondsForDesiredCalcOnTooManyStarves = s._windowSecondsForDesiredCalcOnTooManyStarves) ∧
     ((s.setUseStDevForJitterCalc b)._windowSecondsForDesiredReduction = s._windowSecondsForDesiredReduction) ∧
     ((s.setUseStDevForJitterCalc b)._currentJitterBufferFrames = s._currentJitterBufferFrames) ∧
     ((s.setUseStDevForJitterCalc b).frameDurationUsecs = s.frameDurationUsecs)) ∧
    (((s.setWindowStarveThreshold w)._starveThreshold = w) ∧
     ((s.setWindowStarveThreshold w)._ringBuffer = s._ringBuffer) ∧
     ((s.setWindowStarveThreshold w)._lastPopSucceeded = s._lastPopSucceeded) ∧
     ((s.setWindowStarveThreshold w)._dynamicJitterBuffers = s._dynamicJitterBuffers) ∧
     ((s.setWindowStarveThreshold w)._staticDesiredJitterBufferFrames = s._staticDesiredJitterBufferFrames) ∧
     ((s.setWindowStarveThreshold w)._useStDevForJitterCalc = s._useStDevForJitterCalc) ∧
     ((s.setWindowStarveThreshold w)._desiredJitterBufferFrames = s._desiredJitterBufferFrames) ∧
     ((s.setWindowStarveThreshold w)._maxFramesOverDesired = s._maxFramesOverDesired) ∧
     ((s.setWindowStarveThreshold w)._isStarved = s._isStarved) ∧
     ((s.setWindowStarveThreshold w)._hasStarted = s._hasStarted) ∧
     ((s.setWindowStarveThreshold w)._consecutiveNotMixedCount = s._consecutiveNotMixedCount) ∧
     ((s.setWindowStarveThreshold w)._starveCount = s._starveCount) ∧
     ((s.setWindowStarveThreshold w)._silentFramesDropped = s._silentFramesDropped) ∧
     ((s.setWindowStarveThreshold w)._oldFramesDropped = s._oldFramesDropped) ∧
     ((s.setWindowStarveThreshold w)._incomingSequenceNumberStats = s._incomingSequenceNumberStats) ∧
     ((s.setWindowStarveThreshold w).recentlySeen = s.recentlySeen) ∧
     ((s.setWindowStarveThreshold w)._lastPacketReceivedTime = s._lastPacketReceivedTime) ∧
     ((s.setWindowStarveThreshold w).gapsLongWindow = s.gapsLongWindow) ∧
     ((s.setWindowStarveThreshold w)._calculatedJitterBufferFramesUsingMaxGap = s._calculatedJitterBufferFramesUsingMaxGap) ∧
     ((s.setWindowStarveThreshold w)._calculatedJitterBufferFramesUsingStDev = s._calculatedJitterBufferFramesUsingStDev) ∧
     ((s.setWindowStarveThreshold w).gapsReductionWindow = s.gapsReductionWindow) ∧
     ((s.setWindowStarveThreshold w)._starveHistoryWindowSeconds = s._starveHistoryWindowSeconds) ∧
     ((s.setWindowStarveThreshold w)._starveHistory = s._starveHistory) ∧
     ((s.setWindowStarveThreshold w)._windowSecondsForDesiredCalcOnTooManyStarves = s._windowSecondsForDesiredCalcOnTooManyStarves) ∧
     ((s.setWindowStarveThreshold w)._windowSecondsForDesiredReduction = s._windowSecondsForDesiredReduction) ∧
     ((s.setWindowStarveThreshold w)._currentJitterBufferFrames = s._currentJitterBufferFrames) ∧
     ((s.setWindowStarveThreshold w).frameDurationUsecs = s.frameDurationUsecs))
    := by
  simp [InboundAudioStream.setMaxFramesOverDesired,
    InboundAudioStream.setUseStDevForJitterCalc,
    InboundAudioStream.setWindowStarveThreshold]

/- ### C7 -/

/-- C7 counterexample: the claim says a granular setter has no observable
effect before the next tick or producer operation; but on the freshly
constructed default stream, immediately after setMaxFramesOverDesired 7 the
accessor getMaxFramesOverDesired already answers 7 instead of the unmodified
stream's 10, with no tick or producer operation in between (header lines 115
and 137, both inline in the sources). -/
theorem C7_counterexample_setter_immediately_observable :
    (sampleState.setMaxFramesOverDesired 7).getMaxFramesOverDesired ≠
      sampleState.getMaxFramesOverDesired := by
  decide

/-- C7 (amended): a granular setter takes effect immediately, not at the next
tick: the stored field is observable through the matching accessor right
away (and the new useStDev flag immediately redirects
getCalculatedJitterBufferFrames), while the setter call itself changes
nothing else - the desired depth, the ring contents and the counters are
untouched until a later operation uses the new value. -/
theorem C7_setters_effective_immediately (s : InboundAudioStream) (v w : Int) (b : Bool) :
    ((s.setMaxFramesOverDesired v).getMaxFramesOverDesired = v ∧
     (s.setMaxFramesOverDesired v).getDesiredJitterBufferFrames =
       s.getDesiredJitterBufferFrames ∧
     (s.setMaxFramesOverDesired v).getFramesAvailable = s.getFramesAvailable ∧
     (s.setMaxFramesOverDesired v).getStarveCount = s.getStarveCount) ∧
    ((s.setUseStDevForJitterCalc b).getCalculatedJitterBufferFrames =
       (if b then s.getCalculatedJitterBufferFramesUsingStDev
        else s.getCalculatedJitterBufferFramesUsingMaxGap) ∧
     (s.setUseStDevForJitterCalc b).getDesiredJitterBufferFrames =
       s.getDesiredJitterBufferFrames) ∧
    ((s.setWindowStarveThreshold w)._starveThreshold = w ∧
     (s.setWindowStarveThreshold w).getDesiredJitterBufferFrames =
       s.getDesiredJitterBufferFrames ∧
     (s.setWindowStarveThreshold w).getStarveCount = s.getStarveCount) := by
  simp [InboundAudioStream.setMaxFramesOverDesired,
    InboundAudioStream.setUseStDevForJitterCalc,
    InboundAudioStream.setWindowStarveThreshold,
    InboundAudioStream.getMaxFramesOverDesired,
    InboundAudioStream.getDesiredJitterBufferFrames,
    InboundAudioStream.getFramesAvailable,
    InboundAudioStream.getStarveCount,
    InboundAudioStream.getCalculatedJitterBufferFrames,
    InboundAudioStream.getCalculatedJitterBufferFramesUsingStDev,
    InboundAudioStream.getCalculatedJitterBufferFramesUsingMaxGap]

/- ### Helper lemmas: ring-buffer projections -/

/-- Writing never changes the frame size. -/
theorem writeSamples_numFrameSamples (rb : AudioRingBuffer) (n : Nat) :
    (rb.writeSamples n).numFrameSamples = rb.numFrameSamples := by
  simp only [AudioRingBuffer.writeSamples]
  split <;> rfl

/-- Writing never changes the capacity. -/
theorem writeSamples_frameCapacity (rb : AudioRingBuffer) (n : Nat) :
    (rb.writeSamples n).frameCapacity = rb.frameCapacity := by
  simp only [AudioRingBuffer.writeSamples]
  split <;> rfl

/-- Writing can only grow the overflow count. -/
theorem overflowCount_le_writeSamples (rb : AudioRingBuffer) (n : Nat) :
    rb.overflowCount ≤ (rb.writeSamples n).overflowCount := by
  simp only [AudioRingBuffer.writeSamples]
  split
  · exact Nat.le_succ _
  · exact Nat.le_refl _

/-- Frame pops keep size, capacity, write cursor and overflow count. -/
theorem popFramesRB_proj (rb : AudioRingBuffer) (n : Nat) :
    (rb.popFramesRB n).numFrameSamples = rb.numFrameSamples ∧
    (rb.popFramesRB n).frameCapacity = rb.frameCapacity ∧
    (rb.popFramesRB n).writePos = rb.writePos ∧
    (rb.popFramesRB n).overflowCount = rb.overflowCount :=
  ⟨rfl, rfl, rfl, rfl⟩

/-- Sample pops keep size, capacity, write cursor and overflow count. -/
theorem popSamplesRB_proj (rb : AudioRingBuffer) (n : Nat) :
    (rb.popSamplesRB n).numFrameSamples = rb.numFrameSamples ∧
    (rb.popSamplesRB n).frameCapacity = rb.frameCapacity ∧
    (rb.popSamplesRB n).writePos = rb.writePos ∧
    (rb.popSamplesRB n).overflowCount = rb.overflowCount :=
  ⟨rfl, rfl, rfl, rfl⟩

/-- Clearing keeps size, capacity, write cursor and overflow count. -/
theorem clearRB_proj (rb : AudioRingBuffer) :
    rb.clearRB.numFrameSamples = rb.numFrameSamples ∧
    rb.clearRB.frameCapacity = rb.frameCapacity ∧
    rb.clearRB.writePos = rb.writePos ∧
    rb.clearRB.overflowCount = rb.overflowCount :=
  ⟨rfl, rfl, rfl, rfl⟩

/- ### Helper: configuration preservation -/

theorem Cfg.reflCfg (s : InboundAudioStream) : Cfg s s :=
  ⟨rfl, rfl, rfl, rfl, rfl, rfl, rfl, rfl, rfl, rfl⟩

theorem Cfg.transCfg {s t u : InboundAudioStream} (h1 : Cfg s t) (h2 : Cfg t u) : Cfg s u := by
  obtain ⟨a1, a2, a3, a4, a5, a6, a7, a8, a9, a10⟩ := h1
  obtain ⟨b1, b2, b3, b4, b5, b6, b7, b8, b9, b10⟩ := h2
  exact ⟨b1.trans a1, b2.trans a2, b3.trans a3, b4.trans a4, b5.trans a5, b6.trans a6,
    b7.trans a7, b8.trans a8, b9.trans a9, b10.trans a10⟩

/-- The depth policy only rewrites the desired depth. -/
theorem cfg_depthPolicy (s : InboundAudioStream) (now : Nat) (k : Bool) :
    Cfg s (s.depthPolicy now k) :=
  ⟨rfl, rfl, rfl, rfl, rfl, rfl, rfl, rfl, rfl, rfl⟩

/-- Recording a starve does not touch the configuration. -/
theorem cfg_recordStarve (s : InboundAudioStream) (now : Nat) :
    Cfg s (s.recordStarve now) :=
  ⟨rfl, rfl, rfl, rfl, rfl, rfl, rfl, rfl, rfl, rfl⟩

/-- Silent-sample loss fill does not touch the configuration. -/
theorem cfg_writeDroppable (s : InboundAudioStream) (n : Nat) :
    Cfg s (s.writeDroppableSilentSamples n) := by
  simp only [InboundAudioStream.writeDroppableSilentSamples]
  split
  · exact Cfg.reflCfg _
  · exact ⟨rfl, rfl, rfl, rfl, rfl, rfl, rfl,
      writeSamples_frameCapacity _ _, writeSamples_numFrameSamples _ _, rfl⟩

/-- Trimming old frames does not touch the configuration. -/
theorem cfg_trimOldFrames (s : InboundAudioStream) : Cfg s s.trimOldFrames := by
  simp only [InboundAudioStream.trimOldFrames]
  split
  · exact ⟨rfl, rfl, rfl, rfl, rfl, rfl, rfl, rfl, rfl, rfl⟩
  · exact Cfg.reflCfg _

/-- Writing audio samples does not touch the configuration. -/
theorem cfg_writeAudioSamples (s : InboundAudioStream) (n : Nat) :
    Cfg s (s.writeAudioSamples n) :=
  ⟨rfl, rfl, rfl, rfl, rfl, rfl, rfl,
    writeSamples_frameCapacity _ _, writeSamples_numFrameSamples _ _, rfl⟩

/-- Recording a timegap does not touch the configuration. -/
theorem cfg_recordTimegap (s : InboundAudioStream) (p : AudioPacket) :
    Cfg s (s.recordTimegap p) := by
  unfold InboundAudioStream.recordTimegap
  split
  · exact Cfg.reflCfg _
  · exact ⟨rfl, rfl, rfl, rfl, rfl, rfl, rfl, rfl, rfl, rfl⟩

/-- Noting the packet arrival does not touch the configuration. -/
theorem cfg_noteArrival (s : InboundAudioStream) (p : AudioPacket) :
    Cfg s (s.noteArrival p) :=
  ⟨rfl, rfl, rfl, rfl, rfl, rfl, rfl, rfl, rfl, rfl⟩

/-- Clearing the starved flag does not touch the configuration. -/
theorem cfg_clearStarveIfRefilled (s : InboundAudioStream) :
    Cfg s s.clearStarveIfRefilled := by
  unfold InboundAudioStream.clearStarveIfRefilled
  split
  · exact ⟨rfl, rfl, rfl, rfl, rfl, rfl, rfl, rfl, rfl, rfl⟩
  · exact Cfg.reflCfg _

/-- Accepting a packet does not touch the configuration. -/
theorem cfg_acceptPacket (s : InboundAudioStream) (p : AudioPacket) (g : Nat) :
    Cfg s (s.acceptPacket p g) :=
  ((((((cfg_writeDroppable s (g * p.numAudioSamples)).transCfg
    (cfg_writeAudioSamples _ _)).transCfg
      (cfg_recordTimegap _ p)).transCfg
        (cfg_noteArrival _ p)).transCfg
          (cfg_depthPolicy _ _ _)).transCfg
            (cfg_trimOldFrames _)).transCfg
              (cfg_clearStarveIfRefilled _)

/-- The packet-branch handlers do not touch the configuration. -/
theorem cfg_onUnreasonablePacket (s : InboundAudioStream) : Cfg s s.onUnreasonablePacket :=
  ⟨rfl, rfl, rfl, rfl, rfl, rfl, rfl, rfl, rfl, rfl⟩

theorem cfg_onDuplicatePacket (s : InboundAudioStream) : Cfg s s.onDuplicatePacket :=
  ⟨rfl, rfl, rfl, rfl, rfl, rfl, rfl, rfl, rfl, rfl⟩

theorem cfg_onLatePacket (s : InboundAudioStream) : Cfg s s.onLatePacket :=
  ⟨rfl, rfl, rfl, rfl, rfl, rfl, rfl, rfl, rfl, rfl⟩

theorem cfg_onTimePacket (s : InboundAudioStream) (p : AudioPacket) :
    Cfg s (s.onTimePacket p) := by
  unfold InboundAudioStream.onTimePacket
  refine Cfg.transCfg ?_ (cfg_acceptPacket _ _ _)
  exact ⟨rfl, rfl, rfl, rfl, rfl, rfl, rfl, rfl, rfl, rfl⟩

theorem cfg_onEarlyPacket (s : InboundAudioStream) (p : AudioPacket) (g : Nat) :
    Cfg s (s.onEarlyPacket p g) := by
  unfold InboundAudioStream.onEarlyPacket
  refine Cfg.transCfg ?_ (cfg_acceptPacket _ _ _)
  exact ⟨rfl, rfl, rfl, rfl, rfl, rfl, rfl, rfl, rfl, rfl⟩

/-- parseData does not touch the configuration. -/
theorem cfg_parseData (s : InboundAudioStream) (p : AudioPacket) :
    Cfg s (s.parseData p) := by
  unfold InboundAudioStream.parseData
  split
  · exact Cfg.reflCfg s
  · split
    · exact cfg_onUnreasonablePacket s
    · exact cfg_onDuplicatePacket s
    · exact cfg_onLatePacket s
    · exact cfg_onTimePacket s p
    · exact cfg_onEarlyPacket s p _

/-- The pop helpers do not touch the configuration. -/
theorem cfg_popFail (s : InboundAudioStream) : Cfg s s.popFail :=
  ⟨rfl, rfl, rfl, rfl, rfl, rfl, rfl, rfl, rfl, rfl⟩

theorem cfg_popFramesSuccess (s : InboundAudioStream) (n : Nat) :
    Cfg s (s.popFramesSuccess n) :=
  ⟨rfl, rfl, rfl, rfl, rfl, rfl, rfl, rfl, rfl, rfl⟩

theorem cfg_popSamplesSuccess (s : InboundAudioStream) (n : Nat) :
    Cfg s (s.popSamplesSuccess n) :=
  ⟨rfl, rfl, rfl, rfl, rfl, rfl, rfl, rfl, rfl, rfl⟩

/-- popFrames does not touch the configuration. -/
theorem cfg_popFrames (s : InboundAudioStream) (m : Nat) (a b : Bool) (now : Nat) :
    Cfg s ((s.popFrames m a b now).1) := by
  simp only [InboundAudioStream.popFrames]
  repeat' split
  all_goals
    first
      | exact cfg_recordStarve _ _
      | exact cfg_popFail s
      | exact cfg_popFramesSuccess s _

/-- popSamples does not touch the configuration. -/
theorem cfg_popSamples (s : InboundAudioStream) (m : Nat) (a b : Bool) (now : Nat) :
    Cfg s ((s.popSamples m a b now).1) := by
  simp only [InboundAudioStream.popSamples]
  repeat' split
  all_goals
    first
      | exact cfg_recordStarve _ _
      | exact cfg_popFail s
      | exact cfg_popSamplesSuccess s _

/-- setToStarved does not touch the configuration. -/
theorem cfg_setToStarved (s : InboundAudioStream) : Cfg s s.setToStarved :=
  ⟨rfl, rfl, rfl, rfl, rfl, rfl, rfl, rfl, rfl, rfl⟩

/-- clearBuffer does not touch the configuration. -/
theorem cfg_clearBuffer (s : InboundAudioStream) : Cfg s s.clearBuffer :=
  ⟨rfl, rfl, rfl, rfl, rfl, rfl, rfl, rfl, rfl, rfl⟩

/-- resetStats does not touch the configuration. -/
theorem cfg_resetStats (s : InboundAudioStream) : Cfg s s.resetStats :=
  ⟨rfl, rfl, rfl, rfl, rfl, rfl, rfl, rfl, rfl, rfl⟩

/-- reset does not touch the configuration. -/
theorem cfg_reset (s : InboundAudioStream) : Cfg s s.reset :=
  ⟨rfl, rfl, rfl, rfl, rfl, rfl, rfl, rfl, rfl, rfl⟩

/-- The per-second callback does not touch the configuration. -/
theorem cfg_tick (s : InboundAudioStream) (now : Nat) :
    Cfg s (s.perSecondCallbackForUpdatingStats now) :=
  ⟨rfl, rfl, rfl, rfl, rfl, rfl, rfl, rfl, rfl, rfl⟩

/-- Every operation except setSettings preserves the configuration. -/
theorem cfg_step (s : InboundAudioStream) (op : StreamOp)
    (h : op.isSetSettings = false) : Cfg s (step s op) := by
  cases op with
  | parse p => exact cfg_parseData s p
  | popFrames m a b now => exact cfg_popFrames s m a b now
  | popSamples m a b now => exact cfg_popSamples s m a b now
  | setToStarved => exact cfg_setToStarved s
  | clearBuffer => exact cfg_clearBuffer s
  | reset => exact cfg_reset s
  | resetStats => exact cfg_resetStats s
  | tick now => exact cfg_tick s now
  | setSettings st => exact absurd h (by simp [StreamOp.isSetSettings])

/- ### Helper lemmas: the desired depth in static mode -/

/-- The clamp only reads the capacity and maxFramesOverDesired, so it is
invariant under any configuration-preserving step. -/
theorem clamp_eq_of_cfg {s t : InboundAudioStream} (h : Cfg s t) (d : Int) :
    t.clampDesiredJitterBufferFramesValue d = s.clampDesiredJitterBufferFramesValue d := by
  obtain ⟨-, -, -, h4, -, -, -, h8, -, -⟩ := h
  unfold InboundAudioStream.clampDesiredJitterBufferFramesValue
  rw [h4, h8]

/-- StaticPinned transports along steps that keep the desired depth, the
static setting, maxFramesOverDesired and the capacity. -/
theorem staticPinned_of_eqs {s t : InboundAudioStream}
    (hd : t._desiredJitterBufferFrames = s._desiredJitterBufferFrames)
    (hst : t._staticDesiredJitterBufferFrames = s._staticDesiredJitterBufferFrames)
    (hm : t._maxFramesOverDesired = s._maxFramesOverDesired)
    (hc : t._ringBuffer.frameCapacity = s._ringBuffer.frameCapacity)
    (hp : StaticPinned s) : StaticPinned t := by
  unfold StaticPinned InboundAudioStream.clampDesiredJitterBufferFramesValue at *
  rw [hd, hst, hm, hc, hp]

/-- In static mode the depth policy pins the desired depth to the clamped
static setting, whatever the starve history and estimates say. -/
theorem depthPolicy_static (s : InboundAudioStream) (now : Nat) (k : Bool)
    (h : s._dynamicJitterBuffers = false) : StaticPinned (s.depthPolicy now k) := by
  unfold StaticPinned InboundAudioStream.depthPolicy
  simp only [h, if_true, InboundAudioStream.clampDesiredJitterBufferFramesValue]

/-- Trimming old frames keeps the desired depth pinned. -/
theorem staticPinned_trimOldFrames {s : InboundAudioStream} (hp : StaticPinned s) :
    StaticPinned s.trimOldFrames := by
  simp only [InboundAudioStream.trimOldFrames]
  split
  · exact staticPinned_of_eqs rfl rfl rfl rfl hp
  · exact hp

/-- Clearing the starved flag keeps the desired depth pinned. -/
theorem staticPinned_clearStarveIfRefilled {s : InboundAudioStream} (hp : StaticPinned s) :
    StaticPinned s.clearStarveIfRefilled := by
  unfold InboundAudioStream.clearStarveIfRefilled
  split
  · exact staticPinned_of_eqs rfl rfl rfl rfl hp
  · exact hp

/-- Accepting a packet in static mode leaves the desired depth pinned. -/
theorem staticPinned_acceptPacket (s : InboundAudioStream) (p : AudioPacket) (g : Nat)
    (h : s._dynamicJitterBuffers = false) : StaticPinned (s.acceptPacket p g) := by
  unfold InboundAudioStream.acceptPacket
  have hc : Cfg s ((((s.writeSamplesForDroppedPackets
      (g * p.numAudioSamples)).writeAudioSamples p.numAudioSamples).recordTimegap p).noteArrival p) :=
    (((cfg_writeDroppable _ _).transCfg (cfg_writeAudioSamples _ _)).transCfg
      (cfg_recordTimegap _ _)).transCfg (cfg_noteArrival _ _)
  exact staticPinned_clearStarveIfRefilled (staticPinned_trimOldFrames
    (depthPolicy_static _ _ _ (hc.1.trans h)))

/-- Recording a starve in static mode leaves the desired depth pinned. -/
theorem staticPinned_recordStarve (s : InboundAudioStream) (now : Nat)
    (h : s._dynamicJitterBuffers = false) : StaticPinned (s.recordStarve now) := by
  unfold InboundAudioStream.recordStarve
  exact depthPolicy_static _ _ _ h

/-- The per-second callback in static mode pins the desired depth. -/
theorem staticPinned_tick (s : InboundAudioStream) (now : Nat)
    (h : s._dynamicJitterBuffers = false) :
    StaticPinned (s.perSecondCallbackForUpdatingStats now) := by
  unfold InboundAudioStream.perSecondCallbackForUpdatingStats
  exact depthPolicy_static _ _ _ h

/-- Every non-setSettings operation preserves the pinned desired depth of
static mode. -/
theorem staticPinned_step (s : InboundAudioStream) (op : StreamOp)
    (hop : op.isSetSettings = false) (hdyn : s._dynamicJitterBuffers = false)
    (hp : StaticPinned s) : StaticPinned (step s op) := by
  cases op with
  | parse p =>
    show StaticPinned (s.parseData p)
    unfold InboundAudioStream.parseData
    split
    · exact hp
    · split
      · exact staticPinned_of_eqs rfl rfl rfl rfl hp
      · exact staticPinned_of_eqs rfl rfl rfl rfl hp
      · exact staticPinned_of_eqs rfl rfl rfl rfl hp
      · exact staticPinned_acceptPacket _ p 0 hdyn
      · exact staticPinned_acceptPacket _ p _ hdyn
  | popFrames m a b now =>
    show StaticPinned ((s.popFrames m a b now).1)
    simp only [InboundAudioStream.popFrames]
    repeat' split
    all_goals
      first
        | exact staticPinned_recordStarve s now hdyn
        | exact staticPinned_of_eqs rfl rfl rfl rfl hp
  | popSamples m a b now =>
    show StaticPinned ((s.popSamples m a b now).1)
    simp only [InboundAudioStream.popSamples]
    repeat' split
    all_goals
      first
        | exact staticPinned_recordStarve s now hdyn
        | exact staticPinned_of_eqs rfl rfl rfl rfl hp
  | setToStarved => exact staticPinned_of_eqs rfl rfl rfl rfl hp
  | clearBuffer => exact staticPinned_of_eqs rfl rfl rfl rfl hp
  | reset => exact staticPinned_of_eqs rfl rfl rfl rfl hp
  | resetStats => exact staticPinned_of_eqs rfl rfl rfl rfl hp
  | tick now => exact staticPinned_tick s now hdyn
  | setSettings st => exact absurd hop (by simp [StreamOp.isSetSettings])

/-- StaticPinned is preserved by any run of non-setSettings operations. -/
theorem staticPinned_run (ops : List StreamOp) :
    ∀ s : InboundAudioStream, (∀ op ∈ ops, op.isSetSettings = false) →
      s._dynamicJitterBuffers = false → StaticPinned s → StaticPinned (run s ops) := by
  induction ops with
  | nil => intro s _ _ hp; exact hp
  | cons op rest ih =>
    intro s hops hd hp
    have h1 : op.isSetSettings = false := hops op (List.mem_cons_self op rest)
    have hd2 : (step s op)._dynamicJitterBuffers = false := (cfg_step s op h1).1.trans hd
    exact ih (step s op) (fun o ho => hops o (List.mem_cons_of_mem op ho)) hd2
      (staticPinned_step s op h1 hd hp)

/- ### C2 -/

/-- C2 counterexample: the claim quantifies over every sequence of operations,
but settings changes are operations too and, per the spec, only take effect
at the next tick.  In static mode, after a first tick pinned the depth to the
old static value 1, a setSettings raising the static value to 5 leaves
desiredFrames at 1 while staticDesiredJitterBufferFrames (and its clamp) is
already 5 - so desiredFrames no longer equals the clamped static value. -/
theorem C2_counterexample_settings_change_breaks_pin :
    (run staticSampleState
      [StreamOp.tick 1000000,
       StreamOp.setSettings
         { staticSettings with _staticDesiredJitterBufferFrames := 5 }])._dynamicJitterBuffers =
      false ∧
    ¬((run staticSampleState
      [StreamOp.tick 1000000,
       StreamOp.setSettings
         { staticSettings with _staticDesiredJitterBufferFrames := 5 }])._desiredJitterBufferFrames =
      (run staticSampleState
        [StreamOp.tick 1000000,
         StreamOp.setSettings
           { staticSettings with _staticDesiredJitterBufferFrames := 5 }]).clampDesiredJitterBufferFramesValue
        (run staticSampleState
          [StreamOp.tick 1000000,
           StreamOp.setSettings
             { staticSettings with _staticDesiredJitterBufferFrames := 5 }])._staticDesiredJitterBufferFrames) := by
  decide

/-- C2 (amended): when dynamicJitterBuffers is false, desiredFrames equals the
clamped staticDesiredJitterBufferFrames at all times after the first tick,
for every sequence of operations that does not modify the settings and every
value of staticDesiredJitterBufferFrames. -/
theorem C2_static_mode_desired_pinned_after_tick (s : InboundAudioStream) (now : Nat)
    (ops : List StreamOp) (hdyn : s._dynamicJitterBuffers = false)
    (hops : ∀ op ∈ ops, op.isSetSettings = false) :
    (run (s.perSecondCallbackForUpdatingStats now) ops)._desiredJitterBufferFrames =
      (run (s.perSecondCallbackForUpdatingStats now) ops).clampDesiredJitterBufferFramesValue
        (run (s.perSecondCallbackForUpdatingStats now) ops)._staticDesiredJitterBufferFrames := by
  have hd2 : (s.perSecondCallbackForUpdatingStats now)._dynamicJitterBuffers = false :=
    (cfg_tick s now).1.trans hdyn
  exact staticPinned_run ops (s.perSecondCallbackForUpdatingStats now) hops hd2
    (staticPinned_tick s now hdyn)

/-- C2 witness: the pinned-depth theorem applied to the concrete static-mode
stream, a tick, and a subsequent starving pop. -/
theorem C2_static_mode_desired_pinned_after_tick_witness :
    (run (staticSampleState.perSecondCallbackForUpdatingStats 1000000)
      [StreamOp.popFrames 1 true true 2000000])._desiredJitterBufferFrames =
      (run (staticSampleState.perSecondCallbackForUpdatingStats 1000000)
        [StreamOp.popFrames 1 true true 2000000]).clampDesiredJitterBufferFramesValue
        (run (staticSampleState.perSecondCallbackForUpdatingStats 1000000)
          [StreamOp.popFrames 1 true true 2000000])._staticDesiredJitterBufferFrames :=
  C2_static_mode_desired_pinned_after_tick staticSampleState 1000000
    [StreamOp.popFrames 1 true true 2000000] rfl
    (by
      intro op hop
      rw [List.mem_singleton] at hop
      subst hop
      rfl)

/- ### Helper lemmas: the clamp interval -/

/-- When maxFramesOverDesired does not exceed the capacity, the clamp output
lies in the interval from 0 to frameCapacity - maxFramesOverDesired. -/
theorem clamp_range (s : InboundAudioStream) (d : Int)
    (hcap : s._maxFramesOverDesired ≤ (s._ringBuffer.frameCapacity : Int)) :
    0 ≤ s.clampDesiredJitterBufferFramesValue d ∧
      s.clampDesiredJitterBufferFramesValue d ≤
        (s._ringBuffer.frameCapacity : Int) - s._maxFramesOverDesired := by
  unfold InboundAudioStream.clampDesiredJitterBufferFramesValue
  constructor
  · exact le_min (le_max_right d 0) (by omega)
  · exact min_le_right _ _

/-- DesiredInRange transports along steps that keep the desired depth, both
calculated estimates, maxFramesOverDesired and the capacity. -/
theorem desiredInRange_of_eqs {s t : InboundAudioStream} (h : DesiredInRange s)
    (hd : t._desiredJitterBufferFrames = s._desiredJitterBufferFrames)
    (h1 : t._calculatedJitterBufferFramesUsingMaxGap =
      s._calculatedJitterBufferFramesUsingMaxGap)
    (h2 : t._calculatedJitterBufferFramesUsingStDev =
      s._calculatedJitterBufferFramesUsingStDev)
    (hm : t._maxFramesOverDesired = s._maxFramesOverDesired)
    (hc : t._ringBuffer.frameCapacity = s._ringBuffer.frameCapacity) :
    DesiredInRange t := by
  unfold DesiredInRange at *
  rw [hd, h1, h2, hm, hc]
  exact h

/-- The depth policy output stays in range. -/
theorem desiredInRange_depthPolicy (s : InboundAudioStream) (now : Nat) (k : Bool)
    (hcap : s._maxFramesOverDesired ≤ (s._ringBuffer.frameCapacity : Int))
    (h : DesiredInRange s) : DesiredInRange (s.depthPolicy now k) :=
  ⟨clamp_range s _ hcap, h.2.1, h.2.2⟩

/-- The recomputed estimates stay in range. -/
theorem desiredInRange_recomputeEstimates (s : InboundAudioStream) (now : Nat)
    (hcap : s._maxFramesOverDesired ≤ (s._ringBuffer.frameCapacity : Int))
    (h : DesiredInRange s) : DesiredInRange (s.recomputeEstimates now) :=
  ⟨h.1, clamp_range s _ hcap, clamp_range s _ hcap⟩

/-- Recording a starve keeps the range invariant. -/
theorem desiredInRange_recordStarve (s : InboundAudioStream) (now : Nat)
    (hcap : s._maxFramesOverDesired ≤ (s._ringBuffer.frameCapacity : Int))
    (h : DesiredInRange s) : DesiredInRange (s.recordStarve now) := by
  unfold InboundAudioStream.recordStarve
  exact desiredInRange_depthPolicy _ _ _ hcap h

/-- The loss fill keeps the range invariant. -/
theorem desiredInRange_writeDroppable (s : InboundAudioStream) (n : Nat)
    (h : DesiredInRange s) : DesiredInRange (s.writeDroppableSilentSamples n) := by
  unfold InboundAudioStream.writeDroppableSilentSamples
  split
  · exact desiredInRange_of_eqs h rfl rfl rfl rfl rfl
  · exact desiredInRange_of_eqs h rfl rfl rfl rfl (writeSamples_frameCapacity _ _)

/-- Recording a timegap keeps the range invariant. -/
theorem desiredInRange_recordTimegap (s : InboundAudioStream) (p : AudioPacket)
    (h : DesiredInRange s) : DesiredInRange (s.recordTimegap p) := by
  unfold InboundAudioStream.recordTimegap
  split
  · exact h
  · exact desiredInRange_of_eqs h rfl rfl rfl rfl rfl

/-- Trimming keeps the range invariant. -/
theorem desiredInRange_trimOldFrames {s : InboundAudioStream} (h : DesiredInRange s) :
    DesiredInRange s.trimOldFrames := by
  simp only [InboundAudioStream.trimOldFrames]
  split
  · exact desiredInRange_of_eqs h rfl rfl rfl rfl rfl
  · exact h

/-- Clearing the starved flag keeps the range invariant. -/
theorem desiredInRange_clearStarveIfRefilled {s : InboundAudioStream}
    (h : DesiredInRange s) : DesiredInRange s.clearStarveIfRefilled := by
  unfold InboundAudioStream.clearStarveIfRefilled
  split
  · exact desiredInRange_of_eqs h rfl rfl rfl rfl rfl
  · exact h

/-- Accepting a packet keeps the range invariant. -/
theorem desiredInRange_acceptPacket (s : InboundAudioStream) (p : AudioPacket) (g : Nat)
    (hcap : s._maxFramesOverDesired ≤ (s._ringBuffer.frameCapacity : Int))
    (h : DesiredInRange s) : DesiredInRange (s.acceptPacket p g) := by
  unfold InboundAudioStream.acceptPacket
  have c1 : Cfg s ((((s.writeSamplesForDroppedPackets
      (g * p.numAudioSamples)).writeAudioSamples p.numAudioSamples).recordTimegap p).noteArrival p) :=
    (((cfg_writeDroppable _ _).transCfg (cfg_writeAudioSamples _ _)).transCfg
      (cfg_recordTimegap _ _)).transCfg (cfg_noteArrival _ _)
  obtain ⟨-, -, -, hm, -, -, -, hc, -, -⟩ := c1
  have hA : DesiredInRange (s.writeSamplesForDroppedPackets (g * p.numAudioSamples)) :=
    desiredInRange_writeDroppable s _ h
  have hB : DesiredInRange ((s.writeSamplesForDroppedPackets
      (g * p.numAudioSamples)).writeAudioSamples p.numAudioSamples) :=
    desiredInRange_of_eqs hA rfl rfl rfl rfl (writeSamples_frameCapacity _ _)
  have hC : DesiredInRange (((s.writeSamplesForDroppedPackets
      (g * p.numAudioSamples)).writeAudioSamples p.numAudioSamples).recordTimegap p) :=
    desiredInRange_recordTimegap _ p hB
  have hD : DesiredInRange ((((s.writeSamplesForDroppedPackets
      (g * p.numAudioSamples)).writeAudioSamples p.numAudioSamples).recordTimegap
        p).noteArrival p) :=
    desiredInRange_of_eqs hC rfl rfl rfl rfl rfl
  refine desiredInRange_clearStarveIfRefilled (desiredInRange_trimOldFrames
    (desiredInRange_depthPolicy _ _ _ ?_ hD))
  rw [hm, hc]
  exact hcap

/-- The per-second callback keeps the range invariant. -/
theorem desiredInRange_tick (s : InboundAudioStream) (now : Nat)
    (hcap : s._maxFramesOverDesired ≤ (s._ringBuffer.frameCapacity : Int))
    (h : DesiredInRange s) : DesiredInRange (s.perSecondCallbackForUpdatingStats now) := by
  unfold InboundAudioStream.perSecondCallbackForUpdatingStats
  refine desiredInRange_depthPolicy _ _ _ hcap ?_
  exact desiredInRange_of_eqs (desiredInRange_recomputeEstimates s now hcap h)
    rfl rfl rfl rfl rfl

/-- Every non-setSettings operation preserves the range invariant. -/
theorem desiredInRange_step (s : InboundAudioStream) (op : StreamOp)
    (hop : op.isSetSettings = false)
    (hcap : s._maxFramesOverDesired ≤ (s._ringBuffer.frameCapacity : Int))
    (h : DesiredInRange s) : DesiredInRange (step s op) := by
  cases op with
  | parse p =>
    show DesiredInRange (s.parseData p)
    unfold InboundAudioStream.parseData
    split
    · exact h
    · split
      · exact desiredInRange_of_eqs h rfl rfl rfl rfl rfl
      · exact desiredInRange_of_eqs h rfl rfl rfl rfl rfl
      · exact desiredInRange_of_eqs h rfl rfl rfl rfl rfl
      · exact desiredInRange_acceptPacket _ p 0 hcap h
      · exact desiredInRange_acceptPacket _ p _ hcap h
  | popFrames m a b now =>
    show DesiredInRange ((s.popFrames m a b now).1)
    simp only [InboundAudioStream.popFrames]
    repeat' split
    all_goals
      first
        | exact desiredInRange_recordStarve s now hcap h
        | exact desiredInRange_of_eqs h rfl rfl rfl rfl rfl
  | popSamples m a b now =>
    show DesiredInRange ((s.popSamples m a b now).1)
    simp only [InboundAudioStream.popSamples]
    repeat' split
    all_goals
      first
        | exact desiredInRange_recordStarve s now hcap h
        | exact desiredInRange_of_eqs h rfl rfl rfl rfl rfl
  | setToStarved => exact desiredInRange_of_eqs h rfl rfl rfl rfl rfl
  | clearBuffer => exact desiredInRange_of_eqs h rfl rfl rfl rfl rfl
  | reset => exact desiredInRange_of_eqs h rfl rfl rfl rfl rfl
  | resetStats => exact desiredInRange_of_eqs h rfl rfl rfl rfl rfl
  | tick now => exact desiredInRange_tick s now hcap h
  | setSettings st => exact absurd hop (by simp [StreamOp.isSetSettings])

/-- The range invariant is preserved by any run of non-setSettings operations. -/
theorem desiredInRange_run (ops : List StreamOp) :
    ∀ s : InboundAudioStream, (∀ op ∈ ops, op.isSetSettings = false) →
      s._maxFramesOverDesired ≤ (s._ringBuffer.frameCapacity : Int) →
      DesiredInRange s → DesiredInRange (run s ops) := by
  induction ops with
  | nil => intro s _ _ h; exact h
  | cons op rest ih =>
    intro s hops hcap h
    have h1 : op.isSetSettings = false := hops op (List.mem_cons_self op rest)
    obtain ⟨-, -, -, hm, -, -, -, hc, -, -⟩ := cfg_step s op h1
    have hcap2 : (step s op)._maxFramesOverDesired ≤
        ((step s op)._ringBuffer.frameCapacity : Int) := by
      rw [hm, hc]
      exact hcap
    exact ih (step s op) (fun o ho => hops o (List.mem_cons_of_mem op ho)) hcap2
      (desiredInRange_step s op h1 hcap h)

/- ### C3 -/

/-- C3 counterexample: the claim quantifies over every settings configuration,
but nothing stops maxFramesOverDesired from exceeding the capacity; with
maxFramesOverDesired = 101 on a 100-frame ring the clamp interval is empty,
and already the freshly constructed stream (a reachable state) has
desiredFrames = -1, outside the interval from 0 to
frameCapacity - maxFramesOverDesired = -1. -/
theorem C3_counterexample_degenerate_settings :
    mkInboundAudioStream 240 100 10000 degenerateSettings =
      some (initStream 240 100 10000 degenerateSettings) ∧
    ¬(0 ≤ (initStream 240 100 10000 degenerateSettings)._desiredJitterBufferFrames ∧
      (initStream 240 100 10000 degenerateSettings)._desiredJitterBufferFrames ≤
        ((initStream 240 100 10000 degenerateSettings)._ringBuffer.frameCapacity : Int) -
          (initStream 240 100 10000 degenerateSettings)._maxFramesOverDesired) := by
  decide

/-- C3 (amended): for every settings configuration with
maxFramesOverDesired at most the frame capacity, every state reached from a
successful construction by operations that do not modify the settings has
desiredFrames in the closed interval from 0 to
frameCapacity - maxFramesOverDesired, and both jitter-estimator outputs
(the calculated max-gap and std-dev depths used to set it) are clamped to
that interval. -/
theorem C3_desired_frames_in_clamp_interval (numFrameSamples numFramesCapacity : Int)
    (fdur : Nat) (st : Settings) (s0 : InboundAudioStream)
    (h0 : mkInboundAudioStream numFrameSamples numFramesCapacity fdur st = some s0)
    (hmax : st._maxFramesOverDesired ≤ numFramesCapacity)
    (ops : List StreamOp) (hops : ∀ op ∈ ops, op.isSetSettings = false) :
    DesiredInRange (run s0 ops) := by
  by_cases hbad : numFrameSamples < 1 ∨ numFramesCapacity < 1
  · rw [mkInboundAudioStream, if_pos hbad] at h0
    exact absurd h0 (by simp)
  · rw [mkInboundAudioStream, if_neg hbad] at h0
    have hs0 : s0 = initStream numFrameSamples.toNat numFramesCapacity.toNat fdur st :=
      (Option.some.inj h0).symm
    subst hs0
    have hcapN : ((numFramesCapacity.toNat : Nat) : Int) = numFramesCapacity :=
      Int.toNat_of_nonneg (by omega)
    have hcap2 : (initStream numFrameSamples.toNat numFramesCapacity.toNat
        fdur st)._maxFramesOverDesired ≤
        ((initStream numFrameSamples.toNat numFramesCapacity.toNat
          fdur st)._ringBuffer.frameCapacity : Int) := by
      show st._maxFramesOverDesired ≤ ((numFramesCapacity.toNat : Nat) : Int)
      omega
    refine desiredInRange_run ops _ hops hcap2 ⟨?_, ⟨le_refl 0, ?_⟩, ⟨le_refl 0, ?_⟩⟩
    · exact clamp_range _ _ hcap2
    · show (0 : Int) ≤ ((numFramesCapacity.toNat : Nat) : Int) - st._maxFramesOverDesired
      omega
    · show (0 : Int) ≤ ((numFramesCapacity.toNat : Nat) : Int) - st._maxFramesOverDesired
      omega

/-- C3 witness: the interval invariant on the concrete default stream after a
parsed packet. -/
theorem C3_desired_frames_in_clamp_interval_witness :
    DesiredInRange (run sampleState
      [StreamOp.parse
        { sequenceNumber := 0, numAudioSamples := 240,
          arrivalTimeUsecs := 5000, malformed := false }]) :=
  C3_desired_frames_in_clamp_interval 240 100 10000 Settings.defaultSettings sampleState
    mkSampleState_eq (by decide) _
    (by
      intro op hop
      rw [List.mem_singleton] at hop
      subst hop
      rfl)

/- ### Helper lemmas: ring well-formedness -/

/-- A well-formed ring never holds more frames than its capacity. -/
theorem framesAvailable_le_of_WF (rb : AudioRingBuffer) (h : RingWF rb) :
    rb.framesAvailable ≤ rb.frameCapacity := by
  obtain ⟨-, h2⟩ := h
  unfold AudioRingBuffer.framesAvailable
  unfold AudioRingBuffer.capacitySamples at h2
  rcases Nat.eq_zero_or_pos rb.numFrameSamples with hz | hpos
  · rw [hz, Nat.div_zero]
    exact Nat.zero_le _
  · calc rb.samplesAvailable / rb.numFrameSamples
        ≤ rb.frameCapacity * rb.numFrameSamples / rb.numFrameSamples :=
          Nat.div_le_div_right h2
      _ = rb.frameCapacity := Nat.mul_div_cancel rb.frameCapacity hpos

/-- Writing preserves well-formedness: the overflow policy advances the read
cursor so that at most the capacity remains stored. -/
theorem wf_writeSamples (rb : AudioRingBuffer) (n : Nat) (h : RingWF rb) :
    RingWF (rb.writeSamples n) := by
  obtain ⟨h1, h2⟩ := h
  simp only [AudioRingBuffer.samplesAvailable] at h2
  simp only [AudioRingBuffer.writeSamples]
  split
  · refine ⟨Nat.sub_le _ _, ?_⟩
    show rb.writePos + n - (rb.writePos + n - rb.capacitySamples) ≤ rb.capacitySamples
    omega
  · refine ⟨?_, ?_⟩
    · show rb.readPos ≤ rb.writePos + n
      omega
    · show rb.writePos + n - rb.readPos ≤ rb.capacitySamples
      omega

/-- Popping at most the available frames preserves well-formedness. -/
theorem wf_popFramesRB (rb : AudioRingBuffer) (n : Nat) (h : RingWF rb)
    (hn : n ≤ rb.framesAvailable) : RingWF (rb.popFramesRB n) := by
  obtain ⟨h1, h2⟩ := h
  have hmul : n * rb.numFrameSamples ≤ rb.samplesAvailable :=
    le_trans (Nat.mul_le_mul_right _ hn) (Nat.div_mul_le_self _ _)
  simp only [AudioRingBuffer.samplesAvailable] at h2 hmul
  simp only [AudioRingBuffer.popFramesRB]
  constructor
  · show rb.readPos + n * rb.numFrameSamples ≤ rb.writePos
    omega
  · show rb.writePos - (rb.readPos + n * rb.numFrameSamples) ≤ rb.capacitySamples
    omega

/-- Popping at most the available samples preserves well-formedness. -/
theorem wf_popSamplesRB (rb : AudioRingBuffer) (n : Nat) (h : RingWF rb)
    (hn : n ≤ rb.samplesAvailable) : RingWF (rb.popSamplesRB n) := by
  obtain ⟨h1, h2⟩ := h
  simp only [AudioRingBuffer.samplesAvailable] at h2 hn
  simp only [AudioRingBuffer.popSamplesRB]
  constructor
  · show rb.readPos + n ≤ rb.writePos
    omega
  · show rb.writePos - (rb.readPos + n) ≤ rb.capacitySamples
    omega

/-- Clearing preserves well-formedness. -/
theorem wf_clearRB (rb : AudioRingBuffer) : RingWF rb.clearRB := by
  refine ⟨le_refl _, ?_⟩
  show rb.writePos - rb.writePos ≤ rb.capacitySamples
  omega

/-- The pop counts never exceed what is available. -/
theorem framesPoppedCount_le (s : InboundAudioStream) (m : Nat) (a : Bool) :
    s.framesPoppedCount m a ≤ s._ringBuffer.framesAvailable := by
  unfold InboundAudioStream.framesPoppedCount
  split
  · exact Nat.zero_le _
  · exact min_le_right _ _

theorem samplesPoppedCount_le (s : InboundAudioStream) (m : Nat) (a : Bool) :
    s.samplesPoppedCount m a ≤ s._ringBuffer.samplesAvailable := by
  unfold InboundAudioStream.samplesPoppedCount
  split
  · exact Nat.zero_le _
  · exact min_le_right _ _

/- ### Ring well-formedness through each stream operation -/

theorem wf_writeDroppable (s : InboundAudioStream) (n : Nat)
    (h : RingWF s._ringBuffer) : RingWF (s.writeDroppableSilentSamples n)._ringBuffer := by
  unfold InboundAudioStream.writeDroppableSilentSamples
  split
  · exact h
  · exact wf_writeSamples _ _ h

theorem wf_recordTimegap (s : InboundAudioStream) (p : AudioPacket)
    (h : RingWF s._ringBuffer) : RingWF (s.recordTimegap p)._ringBuffer := by
  unfold InboundAudioStream.recordTimegap
  split
  · exact h
  · exact h

theorem wf_clearStarveIfRefilled (s : InboundAudioStream)
    (h : RingWF s._ringBuffer) : RingWF s.clearStarveIfRefilled._ringBuffer := by
  unfold InboundAudioStream.clearStarveIfRefilled
  split
  · exact h
  · exact h

theorem wf_trimOldFrames (s : InboundAudioStream)
    (h : RingWF s._ringBuffer) : RingWF s.trimOldFrames._ringBuffer := by
  simp only [InboundAudioStream.trimOldFrames]
  split
  · refine wf_popFramesRB _ _ h ?_
    have hb : (0 : Int) ≤ max s._desiredJitterBufferFrames 0 := le_max_right _ _
    omega
  · exact h

theorem wf_acceptPacket (s : InboundAudioStream) (p : AudioPacket) (g : Nat)
    (h : RingWF s._ringBuffer) : RingWF (s.acceptPacket p g)._ringBuffer := by
  unfold InboundAudioStream.acceptPacket
  refine wf_clearStarveIfRefilled _ (wf_trimOldFrames _ ?_)
  have hD : RingWF ((((s.writeSamplesForDroppedPackets
      (g * p.numAudioSamples)).writeAudioSamples p.numAudioSamples).recordTimegap
        p).noteArrival p)._ringBuffer :=
    wf_recordTimegap _ p (wf_writeSamples _ _ (wf_writeDroppable s _ h))
  exact hD

theorem wf_recordStarve (s : InboundAudioStream) (now : Nat)
    (h : RingWF s._ringBuffer) : RingWF (s.recordStarve now)._ringBuffer := h

/-- Every operation preserves ring well-formedness. -/
theorem wf_step (s : InboundAudioStream) (op : StreamOp)
    (h : RingWF s._ringBuffer) : RingWF (step s op)._ringBuffer := by
  cases op with
  | parse p =>
    show RingWF (s.parseData p)._ringBuffer
    unfold InboundAudioStream.parseData
    split
    · exact h
    · split
      · exact wf_clearRB _
      · exact h
      · exact h
      · exact wf_acceptPacket _ p 0 h
      · exact wf_acceptPacket _ p _ h
  | popFrames m a b now =>
    show RingWF ((s.popFrames m a b now).1)._ringBuffer
    simp only [InboundAudioStream.popFrames]
    repeat' split
    all_goals
      first
        | exact wf_recordStarve s now h
        | exact h
        | exact wf_popFramesRB _ _ h (framesPoppedCount_le s m a)
  | popSamples m a b now =>
    show RingWF ((s.popSamples m a b now).1)._ringBuffer
    simp only [InboundAudioStream.popSamples]
    repeat' split
    all_goals
      first
        | exact wf_recordStarve s now h
        | exact h
        | exact wf_popSamplesRB _ _ h (samplesPoppedCount_le s m a)
  | setToStarved => exact h
  | clearBuffer => exact wf_clearRB _
  | reset => exact wf_clearRB _
  | resetStats => exact h
  | tick now => exact h
  | setSettings st => exact h

/-- Ring well-formedness is preserved by every run. -/
theorem wf_run (ops : List StreamOp) :
    ∀ s : InboundAudioStream, RingWF s._ringBuffer → RingWF (run s ops)._ringBuffer := by
  induction ops with
  | nil => intro s h; exact h
  | cons op rest ih => intro s h; exact ih (step s op) (wf_step s op h)

/- ### C4 -/

/-- C4: for every sequence of operations on a successfully constructed
stream, framesAvailable stays between 0 and frameCapacity; a write beyond
capacity advances the read cursor to writePos + n - capacity and increments
the overflow count instead of exceeding the bound; and a pop of N frames
moves the read cursor by exactly N * frameSampleCount (with N the returned
pop count, in particular N = 0 on a failed pop). -/
theorem C4_frames_available_bounded :
    (∀ (numFrameSamples numFramesCapacity : Int) (fdur : Nat) (st : Settings)
      (s0 : InboundAudioStream),
      mkInboundAudioStream numFrameSamples numFramesCapacity fdur st = some s0 →
      ∀ ops : List StreamOp,
        0 ≤ (run s0 ops).getFramesAvailable ∧
        (run s0 ops).getFramesAvailable ≤ (run s0 ops).getFrameCapacity) ∧
    (∀ (rb : AudioRingBuffer) (n : Nat), RingWF rb →
      rb.capacitySamples < rb.writePos + n - rb.readPos →
      (rb.writeSamples n).readPos = rb.writePos + n - rb.capacitySamples ∧
      (rb.writeSamples n).overflowCount = rb.overflowCount + 1 ∧
      (rb.writeSamples n).samplesAvailable ≤ rb.capacitySamples) ∧
    (∀ (s : InboundAudioStream) (m : Nat) (a b : Bool) (now : Nat),
      ((s.popFrames m a b now).1)._ringBuffer.readPos =
        s._ringBuffer.readPos +
          (s.popFrames m a b now).2 * s._ringBuffer.numFrameSamples) := by
  refine ⟨?_, ?_, ?_⟩
  · intro numFrameSamples numFramesCapacity fdur st s0 h0 ops
    have hwf0 : RingWF s0._ringBuffer := by
      by_cases hbad : numFrameSamples < 1 ∨ numFramesCapacity < 1
      · rw [mkInboundAudioStream, if_pos hbad] at h0
        exact absurd h0 (by simp)
      · rw [mkInboundAudioStream, if_neg hbad] at h0
        have hs0 : s0 = initStream numFrameSamples.toNat numFramesCapacity.toNat fdur st :=
          (Option.some.inj h0).symm
        subst hs0
        exact ⟨le_refl 0, Nat.zero_le _⟩
    exact ⟨Nat.zero_le _,
      framesAvailable_le_of_WF _ (wf_run ops s0 hwf0)⟩
  · intro rb n hwf hover
    simp only [AudioRingBuffer.writeSamples]
    rw [if_pos hover]
    refine ⟨rfl, rfl, ?_⟩
    show rb.writePos + n - (rb.writePos + n - rb.capacitySamples) ≤ rb.capacitySamples
    omega
  · intro s m a b now
    simp only [InboundAudioStream.popFrames]
    split
    · split
      · show s._ringBuffer.readPos = s._ringBuffer.readPos + 0 * s._ringBuffer.numFrameSamples
        simp
      · show s._ringBuffer.readPos = s._ringBuffer.readPos + 0 * s._ringBuffer.numFrameSamples
        simp
    · rfl

/-- C4 witness: the bound on the concrete default stream after a parse and a
pop, and the overflow and pop-cursor equations at concrete inputs. -/
theorem C4_frames_available_bounded_witness :
    (0 ≤ (run sampleState [StreamOp.popFrames 1 true true 0]).getFramesAvailable ∧
      (run sampleState [StreamOp.popFrames 1 true true 0]).getFramesAvailable ≤
        (run sampleState [StreamOp.popFrames 1 true true 0]).getFrameCapacity) ∧
    (RingWF (AudioRingBuffer.mk 2 3 0 6 0) ∧
      ((AudioRingBuffer.mk 2 3 0 6 0).writeSamples 4).readPos = 6 + 4 - 6 ∧
      ((AudioRingBuffer.mk 2 3 0 6 0).writeSamples 4).overflowCount = 0 + 1) ∧
    ((sampleState.popFrames 5 false true 0).1)._ringBuffer.readPos =
      sampleState._ringBuffer.readPos +
        (sampleState.popFrames 5 false true 0).2 * sampleState._ringBuffer.numFrameSamples := by
  refine ⟨C4_frames_available_bounded.1 240 100 10000 Settings.defaultSettings sampleState
    mkSampleState_eq [StreamOp.popFrames 1 true true 0], ⟨?_, ?_, ?_⟩, ?_⟩
  · exact ⟨by decide, by decide⟩
  · exact (C4_frames_available_bounded.2.1 (AudioRingBuffer.mk 2 3 0 6 0) 4
      ⟨by decide, by decide⟩ (by decide)).1
  · exact (C4_frames_available_bounded.2.1 (AudioRingBuffer.mk 2 3 0 6 0) 4
      ⟨by decide, by decide⟩ (by decide)).2.1
  · exact C4_frames_available_bounded.2.2 sampleState 5 false true 0

/- ### Helper lemmas: counter monotonicity -/

theorem CountersLE.reflCounters (s : InboundAudioStream) : CountersLE s s :=
  ⟨le_refl _, le_refl _, le_refl _, le_refl _, le_refl _⟩

theorem CountersLE.transCounters {s t u : InboundAudioStream}
    (h1 : CountersLE s t) (h2 : CountersLE t u) : CountersLE s u :=
  ⟨le_trans h1.1 h2.1, le_trans h1.2.1 h2.2.1, le_trans h1.2.2.1 h2.2.2.1,
    le_trans h1.2.2.2.1 h2.2.2.2.1, le_trans h1.2.2.2.2 h2.2.2.2.2⟩

theorem countersLE_writeDroppable (s : InboundAudioStream) (n : Nat) :
    CountersLE s (s.writeDroppableSilentSamples n) := by
  unfold InboundAudioStream.writeDroppableSilentSamples
  split
  · exact ⟨le_refl _, le_refl _, le_refl _, Nat.le_add_right _ _, le_refl _⟩
  · exact ⟨le_refl _, le_refl _, overflowCount_le_writeSamples _ _, le_refl _, le_refl _⟩

theorem countersLE_writeAudioSamples (s : InboundAudioStream) (n : Nat) :
    CountersLE s (s.writeAudioSamples n) :=
  ⟨le_refl _, le_refl _, overflowCount_le_writeSamples _ _, le_refl _, le_refl _⟩

theorem countersLE_recordTimegap (s : InboundAudioStream) (p : AudioPacket) :
    CountersLE s (s.recordTimegap p) := by
  unfold InboundAudioStream.recordTimegap
  split
  · exact CountersLE.reflCounters s
  · exact CountersLE.reflCounters s

theorem countersLE_trimOldFrames (s : InboundAudioStream) :
    CountersLE s s.trimOldFrames := by
  simp only [InboundAudioStream.trimOldFrames]
  split
  · exact ⟨le_refl _, le_refl _, le_refl _, le_refl _, Nat.le_add_right _ _⟩
  · exact CountersLE.reflCounters s

theorem countersLE_clearStarveIfRefilled (s : InboundAudioStream) :
    CountersLE s s.clearStarveIfRefilled := by
  unfold InboundAudioStream.clearStarveIfRefilled
  split
  · exact CountersLE.reflCounters s
  · exact CountersLE.reflCounters s

theorem countersLE_recordStarve (s : InboundAudioStream) (now : Nat) :
    CountersLE s (s.recordStarve now) :=
  ⟨le_refl _, Nat.le_succ _, le_refl _, le_refl _, le_refl _⟩

theorem countersLE_noteArrival (s : InboundAudioStream) (p : AudioPacket) :
    CountersLE s (s.noteArrival p) :=
  ⟨le_refl _, le_refl _, le_refl _, le_refl _, le_refl _⟩

theorem countersLE_depthPolicy (s : InboundAudioStream) (now : Nat) (k : Bool) :
    CountersLE s (s.depthPolicy now k) :=
  ⟨le_refl _, le_refl _, le_refl _, le_refl _, le_refl _⟩

theorem countersLE_acceptPacket (s : InboundAudioStream) (p : AudioPacket) (g : Nat) :
    CountersLE s (s.acceptPacket p g) :=
  ((((((countersLE_writeDroppable s (g * p.numAudioSamples)).transCounters
    (countersLE_writeAudioSamples _ _)).transCounters
      (countersLE_recordTimegap _ p)).transCounters
        (countersLE_noteArrival _ p)).transCounters
          (countersLE_depthPolicy _ _ _)).transCounters
            (countersLE_trimOldFrames _)).transCounters
              (countersLE_clearStarveIfRefilled _)

theorem countersLE_onUnreasonablePacket (s : InboundAudioStream) :
    CountersLE s s.onUnreasonablePacket :=
  ⟨Nat.le_succ _, le_refl _, le_refl _, le_refl _, le_refl _⟩

theorem countersLE_onDuplicatePacket (s : InboundAudioStream) :
    CountersLE s s.onDuplicatePacket :=
  ⟨Nat.le_succ _, le_refl _, le_refl _, le_refl _, le_refl _⟩

theorem countersLE_onLatePacket (s : InboundAudioStream) :
    CountersLE s s.onLatePacket :=
  ⟨Nat.le_succ _, le_refl _, le_refl _, le_refl _, le_refl _⟩

theorem countersLE_onTimePacket (s : InboundAudioStream) (p : AudioPacket) :
    CountersLE s (s.onTimePacket p) := by
  unfold InboundAudioStream.onTimePacket
  refine CountersLE.transCounters ?_ (countersLE_acceptPacket _ _ _)
  exact ⟨Nat.le_succ _, le_refl _, le_refl _, le_refl _, le_refl _⟩

theorem countersLE_onEarlyPacket (s : InboundAudioStream) (p : AudioPacket) (g : Nat) :
    CountersLE s (s.onEarlyPacket p g) := by
  unfold InboundAudioStream.onEarlyPacket
  refine CountersLE.transCounters ?_ (countersLE_acceptPacket _ _ _)
  exact ⟨Nat.le_succ _, le_refl _, le_refl _, le_refl _, le_refl _⟩

/-- Every operation except reset and resetStats leaves the five counters
non-decreasing. -/
theorem countersLE_step (s : InboundAudioStream) (op : StreamOp)
    (hr : op ≠ StreamOp.reset) (hrs : op ≠ StreamOp.resetStats) :
    CountersLE s (step s op) := by
  cases op with
  | parse p =>
    show CountersLE s (s.parseData p)
    unfold InboundAudioStream.parseData
    split
    · exact CountersLE.reflCounters s
    · split
      · exact countersLE_onUnreasonablePacket s
      · exact countersLE_onDuplicatePacket s
      · exact countersLE_onLatePacket s
      · exact countersLE_onTimePacket s p
      · exact countersLE_onEarlyPacket s p _
  | popFrames m a b now =>
    show CountersLE s ((s.popFrames m a b now).1)
    simp only [InboundAudioStream.popFrames]
    repeat' split
    all_goals
      first
        | exact countersLE_recordStarve s now
        | exact CountersLE.reflCounters s
        | exact ⟨le_refl _, le_refl _, le_refl _, le_refl _, le_refl _⟩
  | popSamples m a b now =>
    show CountersLE s ((s.popSamples m a b now).1)
    simp only [InboundAudioStream.popSamples]
    repeat' split
    all_goals
      first
        | exact countersLE_recordStarve s now
        | exact CountersLE.reflCounters s
        | exact ⟨le_refl _, le_refl _, le_refl _, le_refl _, le_refl _⟩
  | setToStarved => exact CountersLE.reflCounters s
  | clearBuffer => exact ⟨le_refl _, le_refl _, le_refl _, le_refl _, le_refl _⟩
  | reset => exact absurd rfl hr
  | resetStats => exact absurd rfl hrs
  | tick now => exact ⟨le_refl _, le_refl _, le_refl _, le_refl _, le_refl _⟩
  | setSettings st => exact CountersLE.reflCounters s

/- ### C8 -/

/-- C8 counterexample: resetStats is an operation of the stream, and it
resets the counters: on the default stream one starving pop raises
starveCount to 1, and the following resetStats drops it back to 0, which is
smaller - so not every operation leaves every counter non-decreasing. -/
theorem C8_counterexample_resetStats_decreases_starveCount :
    (step (step sampleState (StreamOp.popFrames 1 true true 0))
        StreamOp.resetStats).getStarveCount <
      (step sampleState (StreamOp.popFrames 1 true true 0)).getStarveCount := by
  decide

/-- C8 (amended): for every operation other than reset and resetStats (the
two operations whose purpose is to reset the statistics), the counters
packetsReceived, starveCount, overflowCount, silentFramesDropped and
oldFramesDropped are non-decreasing across the operation. -/
theorem C8_counters_non_decreasing (s : InboundAudioStream) (op : StreamOp)
    (hr : op ≠ StreamOp.reset) (hrs : op ≠ StreamOp.resetStats) :
    s.getPacketsReceived ≤ (step s op).getPacketsReceived ∧
    s.getStarveCount ≤ (step s op).getStarveCount ∧
    s.getOverflowCount ≤ (step s op).getOverflowCount ∧
    s.getSilentFramesDropped ≤ (step s op).getSilentFramesDropped ∧
    s.getOldFramesDropped ≤ (step s op).getOldFramesDropped :=
  countersLE_step s op hr hrs

/-- C8 witness: the monotonicity applied to the concrete default stream and a
concrete parsed packet. -/
theorem C8_counters_non_decreasing_witness :
    sampleState.getPacketsReceived ≤
      (step sampleState (StreamOp.parse
        { sequenceNumber := 0, numAudioSamples := 240,
          arrivalTimeUsecs := 5000, malformed := false })).getPacketsReceived ∧
    sampleState.getStarveCount ≤
      (step sampleState (StreamOp.parse
        { sequenceNumber := 0, numAudioSamples := 240,
          arrivalTimeUsecs := 5000, malformed := false })).getStarveCount ∧
    sampleState.getOverflowCount ≤
      (step sampleState (StreamOp.parse
        { sequenceNumber := 0, numAudioSamples := 240,
          arrivalTimeUsecs := 5000, malformed := false })).getOverflowCount ∧
    sampleState.getSilentFramesDropped ≤
      (step sampleState (StreamOp.parse
        { sequenceNumber := 0, numAudioSamples := 240,
          arrivalTimeUsecs := 5000, malformed := false })).getSilentFramesDropped ∧
    sampleState.getOldFramesDropped ≤
      (step sampleState (StreamOp.parse
        { sequenceNumber := 0, numAudioSamples := 240,
          arrivalTimeUsecs := 5000, malformed := false })).getOldFramesDropped :=
  C8_counters_non_decreasing sampleState
    (StreamOp.parse
      { sequenceNumber := 0, numAudioSamples := 240,
        arrivalTimeUsecs := 5000, malformed := false })
    (by decide) (by decide)

/- ### C9 -/

/-- C9: every operation of the stream is total - it returns a state on every
input, never an exception-style failure (malformed packets return with the
state unchanged, and the other abnormal cases only update counters, as the
per-branch definitions above show); the only fatal condition is
construction: mkInboundAudioStream succeeds exactly when frameSampleCount
and frameCapacity are both at least 1. -/
theorem C9_no_exceptions_construction_validated :
    (∀ (numFrameSamples numFramesCapacity : Int) (fdur : Nat) (st : Settings),
      (mkInboundAudioStream numFrameSamples numFramesCapacity fdur st).isSome = true ↔
        (1 ≤ numFrameSamples ∧ 1 ≤ numFramesCapacity)) ∧
    (∀ (s : InboundAudioStream) (p : AudioPacket),
      p.malformed = true → s.parseData p = s) ∧
    (∀ (s : InboundAudioStream) (op : StreamOp), ∃ t : InboundAudioStream, step s op = t) := by
  refine ⟨?_, ?_, ?_⟩
  · intro a b fdur st
    rw [mkInboundAudioStream]
    split <;> rename_i hc <;> simp <;> omega
  · intro s p h
    simp [InboundAudioStream.parseData, h]
  · intro s op
    exact ⟨step s op, rfl⟩

/-- C9 witness: construction fails on a zero frame size, succeeds on the
default parameters, and a malformed packet leaves the concrete stream
untouched. -/
theorem C9_no_exceptions_construction_validated_witness :
    ((mkInboundAudioStream 0 100 10000 Settings.defaultSettings).isSome = true ↔
      (1 ≤ (0 : Int) ∧ 1 ≤ (100 : Int))) ∧
    ((mkInboundAudioStream 240 100 10000 Settings.defaultSettings).isSome = true ↔
      (1 ≤ (240 : Int) ∧ 1 ≤ (100 : Int))) ∧
    sampleState.parseData
      { sequenceNumber := 0, numAudioSamples := 240,
        arrivalTimeUsecs := 5000, malformed := true } = sampleState :=
  ⟨C9_no_exceptions_construction_validated.1 0 100 10000 Settings.defaultSettings,
   C9_no_exceptions_construction_validated.1 240 100 10000 Settings.defaultSettings,
   C9_no_exceptions_construction_validated.2.1 sampleState
     { sequenceNumber := 0, numAudioSamples := 240,
       arrivalTimeUsecs := 5000, malformed := true } rfl⟩
